import Mathlib

/-!
# Verification of the webgl-classes rendering toolkit

A shallow embedding of the repository's three source files (`Shader.js`,
which also holds the `Mesh` class, `Texture.js`, and the unnamed `Camera`
file) together with proofs of the frozen specification claims.

Modelling conventions:

* JavaScript numbers are idealized as exact rationals `ℚ`.  Where `NaN`
  and `undefined` are observable (the mesh pipeline: out-of-bounds array
  reads yield `undefined`, malformed parses yield `NaN`, and arithmetic on
  either yields `NaN`), scalars are wrapped in `JSNum`, whose `nan`
  constructor stands for both `NaN` and `undefined`-used-as-number: both
  make every arithmetic result `NaN` and every `<` comparison `false`,
  which is all the code observes.
* `Math.sqrt` has no exact counterpart on `ℚ`; functions that need it
  (gl-matrix `vec3.normalize`, `mat4.lookAt`) take an abstract
  `sqrt : ℚ → ℚ` parameter and every theorem quantifies over it.
* GPU-only side effects (`generateBuffers`, `gl.bufferData`, `texImage2D`
  etc.) either are omitted (they write no field a claim mentions) or are
  recorded as data (the cubemap upload list).
-/

set_option autoImplicit false

/-! ## JavaScript numbers with NaN -/

/-- A JavaScript number as observed by the mesh pipeline: either an exact
rational or `nan` (standing for `NaN`, and for `undefined` in numeric
position, which behaves identically under arithmetic and `<`). -/
inductive JSNum where
  | nan : JSNum
  | num (q : ℚ) : JSNum
deriving DecidableEq, Repr

namespace JSNum

/-- JS `+`: `NaN` propagates. -/
def add : JSNum → JSNum → JSNum
  | num a, num b => num (a + b)
  | _, _ => nan

/-- JS `-`: `NaN` propagates. -/
def sub : JSNum → JSNum → JSNum
  | num a, num b => num (a - b)
  | _, _ => nan

/-- JS `*`: `NaN` propagates. -/
def mul : JSNum → JSNum → JSNum
  | num a, num b => num (a * b)
  | _, _ => nan

instance : Add JSNum := ⟨add⟩
instance : Sub JSNum := ⟨sub⟩
instance : Mul JSNum := ⟨mul⟩

/-- JS `<`: any comparison involving `NaN` is `false`. -/
def lt : JSNum → JSNum → Bool
  | num a, num b => decide (a < b)
  | _, _ => false

@[simp] theorem num_add_num (a b : ℚ) : num a + num b = num (a + b) := rfl
@[simp] theorem num_sub_num (a b : ℚ) : num a - num b = num (a - b) := rfl
@[simp] theorem num_mul_num (a b : ℚ) : num a * num b = num (a * b) := rfl
@[simp] theorem nan_add (x : JSNum) : nan + x = nan := rfl
@[simp] theorem add_nan (x : JSNum) : x + nan = nan := by cases x <;> rfl
@[simp] theorem nan_sub (x : JSNum) : nan - x = nan := rfl
@[simp] theorem sub_nan (x : JSNum) : x - nan = nan := by cases x <;> rfl
@[simp] theorem nan_mul (x : JSNum) : nan * x = nan := rfl
@[simp] theorem mul_nan (x : JSNum) : x * nan = nan := by cases x <;> rfl
@[simp] theorem lt_num_num (a b : ℚ) : lt (num a) (num b) = decide (a < b) := rfl
@[simp] theorem lt_nan_left (x : JSNum) : lt nan x = false := rfl
@[simp] theorem lt_nan_right (x : JSNum) : lt x nan = false := by cases x <;> rfl

end JSNum

/-- A JavaScript array index access `a[e]` where `e` is a computed number:
only a non-negative integral number is an array index; anything else is a
plain property access, which for the arrays here reads `undefined`. -/
def jsIdx : JSNum → Option Nat
  | JSNum.nan => none
  | JSNum.num q => if 0 ≤ q.num ∧ q.den = 1 then some q.num.toNat else none

/-- `a[e]` for a JS array of numbers and a computed number `e`: out-of-range
or non-index access reads `undefined`, modelled as `nan` (every use here
immediately feeds the value into arithmetic or a `Float32Array`, where
`undefined` becomes `NaN`). -/
def arrGet (l : List JSNum) (i : JSNum) : JSNum :=
  match jsIdx i with
  | some n => l.getD n JSNum.nan
  | none => JSNum.nan

/-- `a[e] += v` for a computed number `e`.  A valid in-range index updates
the slot; an invalid or out-of-range index writes a property the mesh code
never reads back, so the backing list is unchanged. -/
def arrAddAt (l : List JSNum) (i : JSNum) (v : JSNum) : List JSNum :=
  match jsIdx i with
  | some n => if n < l.length then l.set n (l.getD n JSNum.nan + v) else l
  | none => l

/-! ## gl-matrix vec3 operations over JSNum (as used by Mesh) -/

/-- A gl-matrix `vec3` holding JS numbers. -/
def JVec3 : Type := JSNum × JSNum × JSNum

instance : DecidableEq JVec3 := by unfold JVec3; infer_instance

/-- gl-matrix `vec3.subtract`. -/
def vec3sub (a b : JVec3) : JVec3 :=
  (a.1 - b.1, a.2.1 - b.2.1, a.2.2 - b.2.2)

/-- gl-matrix `vec3.cross`. -/
def vec3cross (a b : JVec3) : JVec3 :=
  (a.2.1 * b.2.2 - a.2.2 * b.2.1,
   a.2.2 * b.1 - a.1 * b.2.2,
   a.1 * b.2.1 - a.2.1 * b.1)

/-- gl-matrix `vec3.normalize`: `len = x*x+y*y+z*z; if (len > 0) len =
1/Math.sqrt(len); out = a*len`.  `Math.sqrt` is abstracted by the `sqrt`
parameter (only reached when `len` is a rational `> 0`). -/
def vec3normalize (sqrt : ℚ → ℚ) (v : JVec3) : JVec3 :=
  let len := v.1 * v.1 + v.2.1 * v.2.1 + v.2.2 * v.2.2
  let len2 := if JSNum.lt (JSNum.num 0) len then
      match len with
      | JSNum.num q => JSNum.num (1 / sqrt q)
      | JSNum.nan => JSNum.nan
    else len
  (v.1 * len2, v.2.1 * len2, v.2.2 * len2)

/-! ## String splitting (models of the host `String.prototype.split`) -/

/-- Model of JS `str.split(sep)` for a single-character separator, on the
character list of the string: accumulates the current piece and emits it at
each separator.  `"".split(s) = [""]` and separators at the ends yield empty
pieces, as in JS. -/
def splitOnCharGo (sep : Char) : List Char → List Char → List (List Char)
  | [], acc => [acc.reverse]
  | c :: rest, acc =>
    if c = sep then acc.reverse :: splitOnCharGo sep rest []
    else splitOnCharGo sep rest (c :: acc)

/-- Model of JS `str.split(sep)` for a one-character separator. -/
def splitOnChar (sep : Char) (cs : List Char) : List (List Char) :=
  splitOnCharGo sep cs []

/-- Drops the empty pieces that single-space splitting produces between
consecutive spaces, keeping a trailing empty piece (JS `/ +/` treats a
maximal run of spaces as one separator, but a leading or trailing run still
contributes an empty edge piece). -/
def collapseMid : List (List Char) → List (List Char)
  | [] => []
  | [x] => [x]
  | x :: rest => if x = [] then collapseMid rest else x :: collapseMid rest

/-- Model of JS `str.split(/ +/)`: split on single spaces, then collapse
the interior empty pieces (a maximal space run acts as one separator; edge
runs still produce one empty edge piece). -/
def splitSpaces (cs : List Char) : List (List Char) :=
  match splitOnChar ' ' cs with
  | [] => []
  | x :: rest => x :: collapseMid rest

/-! ## Numeric parsing (models of the host `parseFloat` / `parseInt`) -/

/-- Numeric value of a decimal digit character. -/
def digitVal (c : Char) : ℕ := c.toNat - '0'.toNat

/-- Value of a digit string, most significant first. -/
def digitsToNat (ds : List Char) : ℕ :=
  ds.foldl (fun a c => 10 * a + digitVal c) 0

/-- Consume an optional leading sign, returning the sign as a rational
factor and the remaining characters. -/
def parseSign (cs : List Char) : ℚ × List Char :=
  match cs with
  | [] => (1, [])
  | c :: rest =>
    if c = '-' then (-1, rest)
    else if c = '+' then (1, rest)
    else (1, c :: rest)

/-- Model of the host `parseInt(s)` (radix 10): skip leading spaces, read
an optional sign and then a maximal run of decimal digits; `NaN` when there
is no digit.  Trailing junk is ignored, as in JS. -/
def parseIntJS (cs : List Char) : JSNum :=
  let cs1 := cs.dropWhile (· = ' ')
  let sc := parseSign cs1
  let ds := sc.2.takeWhile Char.isDigit
  if ds = [] then JSNum.nan else JSNum.num (sc.1 * (digitsToNat ds : ℚ))

/-- Model of the host `parseFloat(s)` on the decimal forms appearing in OBJ
data: skip leading spaces, optional sign, integer digits, optional `.` and
fraction digits; `NaN` when no digit is found.  Trailing junk is ignored;
exponents are not modelled (none of the claims exercises them). -/
def parseFloatJS (cs : List Char) : JSNum :=
  let cs1 := cs.dropWhile (· = ' ')
  let sc := parseSign cs1
  let ip := sc.2.takeWhile Char.isDigit
  let rest := sc.2.dropWhile Char.isDigit
  match rest with
  | '.' :: r =>
    let fp := r.takeWhile Char.isDigit
    if ip = [] ∧ fp = [] then JSNum.nan
    else JSNum.num (sc.1 * ((digitsToNat ip : ℚ) + (digitsToNat fp : ℚ) / 10 ^ fp.length))
  | _ => if ip = [] then JSNum.nan else JSNum.num (sc.1 * (digitsToNat ip : ℚ))

/-! ## The Mesh class (`src/Shader.js`, second document) -/

/-- The numeric state of a `Mesh` object.  `numNormals` is `undefined`
until `generateNormals` assigns it; it is modelled with initial value `0`
(no code reads it before that assignment).  GPU buffer handles
(`vertexBuffer`, `normalBuffer`, `indexBuffer`) carry no numeric data a
claim mentions and are not modelled. -/
structure Mesh where
  vertices : List JSNum
  faces : List JSNum
  normals : List JSNum
  numFaces : Nat
  numVertices : Nat
  numNormals : Nat
  minXYZ : JVec3
  maxXYZ : JVec3
deriving DecidableEq

namespace Mesh

/-- The `Mesh` constructor: empty buffers, zero counts, zero AABB. -/
def new : Mesh :=
  { vertices := [], faces := [], normals := [],
    numFaces := 0, numVertices := 0, numNormals := 0,
    minXYZ := (JSNum.num 0, JSNum.num 0, JSNum.num 0),
    maxXYZ := (JSNum.num 0, JSNum.num 0, JSNum.num 0) }

/-- One axis update of `computeAABB`'s inner loop:
`if (v < min) min = v; if (v > max) max = v` (`v > max` is `max < v`). -/
def aabbUpdate (v mn mx : JSNum) : JSNum × JSNum :=
  (if JSNum.lt v mn then v else mn, if JSNum.lt mx v then v else mx)

/-- One outer iteration of `computeAABB` at offset `i`: reads
`vertices[i+0..2]` (out of range reads `undefined`, whose comparisons are
all false) and updates the three axes in order `j = 0, 1, 2`. -/
def aabbStep (x y z : JSNum) (mn mx : JVec3) : JVec3 × JVec3 :=
  let p0 := aabbUpdate x mn.1 mx.1
  let p1 := aabbUpdate y mn.2.1 mx.2.1
  let p2 := aabbUpdate z mn.2.2 mx.2.2
  ((p0.1, p1.1, p2.1), (p0.2, p1.2, p2.2))

/-- The loop of `computeAABB`: `for (i = 0; i < vertices.length; i += 3)`.
A final partial chunk (length not divisible by 3) still runs one iteration,
reading `undefined` past the end. -/
def computeAABBGo : List JSNum → JVec3 → JVec3 → JVec3 × JVec3
  | [], mn, mx => (mn, mx)
  | [x], mn, mx => aabbStep x JSNum.nan JSNum.nan mn mx
  | [x, y], mn, mx => aabbStep x y JSNum.nan mn mx
  | x :: y :: z :: rest, mn, mx =>
    let p := aabbStep x y z mn mx
    computeAABBGo rest p.1 p.2

/-- `Mesh.computeAABB`: folds the update loop over the current `minXYZ` /
`maxXYZ` (which the constructor set to `[0,0,0]`). -/
def computeAABB (m : Mesh) : Mesh :=
  let p := computeAABBGo m.vertices m.minXYZ m.maxXYZ
  { m with minXYZ := p.1, maxXYZ := p.2 }

/-- `Mesh.getVertex(id)`: `vid = 3*id`, then reads
`vertices[vid+0..2]` into a `vec3` (an out-of-range read is `undefined`,
which `vec3.fromValues`' `Float32Array` stores as `NaN`). -/
def getVertex (m : Mesh) (id : JSNum) : JVec3 :=
  let vid := JSNum.num 3 * id
  (arrGet m.vertices (vid + JSNum.num 0),
   arrGet m.vertices (vid + JSNum.num 1),
   arrGet m.vertices (vid + JSNum.num 2))

/-- The accumulation of one component `n[j]` into `normals[3*v+j]`
(`this.normals[3 * v + j] += n[j]` with `v` a face entry, hence a computed
JS number used as index). -/
def accumAt (normals : List JSNum) (v : JSNum) (j : ℚ) (nj : JSNum) : List JSNum :=
  arrAddAt normals (JSNum.num 3 * v + JSNum.num j) nj

/-- The body of `generateNormals`' face loop for face `i`: fetch the three
vertex indices, build edge vectors `e1 = v2 - v1`, `e2 = v3 - v1`, take the
cross product `n = e1 × e2`, and accumulate it; the inner loop runs
`j = 0, 1, 2` updating the `v1`, `v2`, `v3` slots in that order at each `j`. -/
def genFace (m : Mesh) (normals : List JSNum) (i : Nat) : List JSNum :=
  let v1 := m.faces.getD (3 * i) JSNum.nan
  let v2 := m.faces.getD (3 * i + 1) JSNum.nan
  let v3 := m.faces.getD (3 * i + 2) JSNum.nan
  let v1Vec := m.getVertex v1
  let v2Vec := m.getVertex v2
  let v3Vec := m.getVertex v3
  let e1 := vec3sub v2Vec v1Vec
  let e2 := vec3sub v3Vec v1Vec
  let n := vec3cross e1 e2
  let a0 := accumAt (accumAt (accumAt normals v1 0 n.1) v2 0 n.1) v3 0 n.1
  let a1 := accumAt (accumAt (accumAt a0 v1 1 n.2.1) v2 1 n.2.1) v3 1 n.2.1
  accumAt (accumAt (accumAt a1 v1 2 n.2.2) v2 2 n.2.2) v3 2 n.2.2

/-- The body of `generateNormals`' final loop for vertex `i`: read the
accumulated vector, `vec3.normalize` it, and write it back. -/
def normStep (sqrt : ℚ → ℚ) (normals : List JSNum) (i : Nat) : List JSNum :=
  let n := (normals.getD (3 * i) JSNum.nan,
            normals.getD (3 * i + 1) JSNum.nan,
            normals.getD (3 * i + 2) JSNum.nan)
  let nn := vec3normalize sqrt n
  ((normals.set (3 * i) nn.1).set (3 * i + 1) nn.2.1).set (3 * i + 2) nn.2.2

/-- `Mesh.generateNormals`: `numNormals = numVertices`; allocate and
zero-fill `normals`; accumulate the unnormalized face normal of each face
into its three vertices' slots; finally normalize every vertex's
accumulated vector in place. -/
def generateNormals (sqrt : ℚ → ℚ) (m : Mesh) : Mesh :=
  let nn := m.numVertices
  let init : List JSNum := List.replicate (nn * 3) (JSNum.num 0)
  let acc := (List.range m.numFaces).foldl (m.genFace) init
  let fin := (List.range nn).foldl (normStep sqrt) acc
  { m with numNormals := nn, normals := fin }

/-- The body of `fromObj`'s line loop: skip a line whose first character is
`#`; split the line on space runs; a line whose first piece is `v` pushes
three `parseFloat`ed coordinates, one whose first piece is `f` pushes three
`parseInt`ed indices minus one; anything else is skipped.  A missing token
(`split[k]` past the end) is `undefined`, and `parseFloat(undefined)` /
`parseInt(undefined)` are `NaN`, modelled by parsing the empty token. -/
def objLine (m : Mesh) (line : List Char) : Mesh :=
  if line.head? = some '#' then m
  else
    let split := splitSpaces line
    if split.headD [] = ['v'] then
      { m with vertices := m.vertices ++
          [parseFloatJS (split.getD 1 []),
           parseFloatJS (split.getD 2 []),
           parseFloatJS (split.getD 3 [])] }
    else if split.headD [] = ['f'] then
      { m with faces := m.faces ++
          [parseIntJS (split.getD 1 []) - JSNum.num 1,
           parseIntJS (split.getD 2 []) - JSNum.num 1,
           parseIntJS (split.getD 3 []) - JSNum.num 1] }
    else m

/-- `Mesh.fromObj`: split the file on newlines, run the line loop, set
`numVertices = vertices.length / 3` and `numFaces = faces.length / 3`
(both lengths are multiples of 3 since lines push triples), compute the
AABB and the normals.  `generateBuffers` only uploads to the GPU and is
not modelled. -/
def fromObj (sqrt : ℚ → ℚ) (fileText : List Char) : Mesh :=
  let lines := splitOnChar '\n' fileText
  let m1 := lines.foldl objLine Mesh.new
  let m2 := { m1 with numVertices := m1.vertices.length / 3,
                      numFaces := m1.faces.length / 3 }
  (m2.computeAABB).generateNormals sqrt

/-- `Mesh.fromPlane(axis)`: pushes four vertices and per-vertex normals for
axis `"z"`/`"Z"`, `"x"`/`"X"` or `"y"`/`"Y"` (any other axis pushes
nothing), then unconditionally pushes faces `(0,1,2)` and `(0,2,3)`, sets
`numVertices = 4`, `numFaces = 2`, and runs `computeAABB` and
`generateNormals` (which overwrites the pushed normals). -/
def fromPlane (sqrt : ℚ → ℚ) (axis : List Char) : Mesh :=
  let m := Mesh.new
  let m :=
    if axis = ['z'] ∨ axis = ['Z'] then
      { m with
        vertices := [JSNum.num (-1), JSNum.num (-1), JSNum.num 0,
                     JSNum.num 1, JSNum.num (-1), JSNum.num 0,
                     JSNum.num 1, JSNum.num 1, JSNum.num 0,
                     JSNum.num (-1), JSNum.num 1, JSNum.num 0],
        normals := [JSNum.num 0, JSNum.num 0, JSNum.num 1,
                    JSNum.num 0, JSNum.num 0, JSNum.num 1,
                    JSNum.num 0, JSNum.num 0, JSNum.num 1,
                    JSNum.num 0, JSNum.num 0, JSNum.num 1] }
    else if axis = ['x'] ∨ axis = ['X'] then
      { m with
        vertices := [JSNum.num 0, JSNum.num (-1), JSNum.num (-1),
                     JSNum.num 0, JSNum.num (-1), JSNum.num 1,
                     JSNum.num 0, JSNum.num 1, JSNum.num 1,
                     JSNum.num 0, JSNum.num 1, JSNum.num (-1)],
        normals := [JSNum.num 1, JSNum.num 0, JSNum.num 0,
                    JSNum.num 1, JSNum.num 0, JSNum.num 0,
                    JSNum.num 1, JSNum.num 0, JSNum.num 0,
                    JSNum.num 1, JSNum.num 0, JSNum.num 0] }
    else if axis = ['y'] ∨ axis = ['Y'] then
      { m with
        vertices := [JSNum.num (-1), JSNum.num 0, JSNum.num (-1),
                     JSNum.num 1, JSNum.num 0, JSNum.num (-1),
                     JSNum.num 1, JSNum.num 0, JSNum.num 1,
                     JSNum.num (-1), JSNum.num 0, JSNum.num 1],
        normals := [JSNum.num 0, JSNum.num 1, JSNum.num 0,
                    JSNum.num 0, JSNum.num 1, JSNum.num 0,
                    JSNum.num 0, JSNum.num 1, JSNum.num 0,
                    JSNum.num 0, JSNum.num 1, JSNum.num 0] }
    else m
  let m := { m with
    faces := [JSNum.num 0, JSNum.num 1, JSNum.num 2,
              JSNum.num 0, JSNum.num 2, JSNum.num 3],
    numVertices := 4, numFaces := 2 }
  (m.computeAABB).generateNormals sqrt

/-- `Mesh.fromCube(size)`: eight corner vertices scaled by `size`, twelve
faces, `computeAABB` and `generateNormals`. -/
def fromCube (sqrt : ℚ → ℚ) (size : ℚ) : Mesh :=
  let base : List ℚ :=
    [-1/2,  1/2, -1/2,   1/2,  1/2, -1/2,   1/2,  1/2,  1/2,  -1/2,  1/2,  1/2,
     -1/2, -1/2, -1/2,   1/2, -1/2, -1/2,   1/2, -1/2,  1/2,  -1/2, -1/2,  1/2]
  let m := { Mesh.new with
    vertices := base.map (fun q => JSNum.num (q * size)),
    faces := [0, 1, 2, 0, 2, 3,
              3, 2, 6, 3, 6, 7,
              5, 4, 6, 4, 7, 6,
              1, 0, 5, 0, 4, 5,
              2, 1, 5, 2, 5, 6,
              0, 3, 7, 0, 7, 4].map (fun n => JSNum.num n),
    numVertices := 8, numFaces := 12 }
  (m.computeAABB).generateNormals sqrt

end Mesh

/-! ## gl-matrix quaternions, vectors and matrices over ℚ (as used by Camera)

The camera code never observes `NaN` (its inputs are plain numbers and the
only partial operation, `1/len` in `mat4.lookAt`, is guarded), so its
scalars are idealized as plain rationals. -/

/-- A gl-matrix `vec3` of plain numbers. -/
def QVec3 : Type := ℚ × ℚ × ℚ

instance : DecidableEq QVec3 := by unfold QVec3; infer_instance

/-- A gl-matrix `quat`, components `(x, y, z, w)`. -/
def Quat : Type := ℚ × ℚ × ℚ × ℚ

instance : DecidableEq Quat := by unfold Quat; infer_instance

/-- A gl-matrix `mat4`: sixteen entries in column-major order, `m0`..`m15`
naming the JS `Float32Array` slots `out[0]`..`out[15]`. -/
structure Mat4 where
  (m0 m1 m2 m3 m4 m5 m6 m7 m8 m9 m10 m11 m12 m13 m14 m15 : ℚ)
deriving DecidableEq

/-- gl-matrix `quat.create()`: the identity quaternion. -/
def quatCreate : Quat := (0, 0, 0, 1)

/-- gl-matrix `vec3.create()`: the zero vector. -/
def qvec3zero : QVec3 := (0, 0, 0)

/-- gl-matrix `vec3.add`. -/
def qvec3add (a b : QVec3) : QVec3 := (a.1 + b.1, a.2.1 + b.2.1, a.2.2 + b.2.2)

/-- gl-matrix `vec3.subtract`. -/
def qvec3sub (a b : QVec3) : QVec3 := (a.1 - b.1, a.2.1 - b.2.1, a.2.2 - b.2.2)

/-- gl-matrix `quat.conjugate`. -/
def quatConjugate (q : Quat) : Quat := (-q.1, -q.2.1, -q.2.2.1, q.2.2.2)

/-- gl-matrix `quat.multiply`. -/
def quatMultiply (a b : Quat) : Quat :=
  let ax := a.1; let ay := a.2.1; let az := a.2.2.1; let aw := a.2.2.2
  let bx := b.1; let b1 := b.2.1; let bz := b.2.2.1; let bw := b.2.2.2
  (ax * bw + aw * bx + ay * bz - az * b1,
   ay * bw + aw * b1 + az * bx - ax * bz,
   az * bw + aw * bz + ax * b1 - ay * bx,
   aw * bw - ax * bx - ay * b1 - az * bz)

/-- gl-matrix `quat.rotateX(out, a, rad)` with the half-angle sine and
cosine `s = sin(rad*0.5)`, `c = cos(rad*0.5)` abstracted (they are host
`Math` calls on a float; no claim depends on their values). -/
def quatRotateX (a : Quat) (s c : ℚ) : Quat :=
  let ax := a.1; let ay := a.2.1; let az := a.2.2.1; let aw := a.2.2.2
  (ax * c + aw * s, ay * c + az * s, az * c - ay * s, aw * c - ax * s)

/-- gl-matrix `quat.rotateY` with abstract half-angle sine and cosine. -/
def quatRotateY (a : Quat) (s c : ℚ) : Quat :=
  let ax := a.1; let ay := a.2.1; let az := a.2.2.1; let aw := a.2.2.2
  (ax * c - az * s, ay * c + aw * s, az * c + ax * s, aw * c - ay * s)

/-- gl-matrix `quat.rotateZ` with abstract half-angle sine and cosine. -/
def quatRotateZ (a : Quat) (s c : ℚ) : Quat :=
  let ax := a.1; let ay := a.2.1; let az := a.2.2.1; let aw := a.2.2.2
  (ax * c + ay * s, ay * c - ax * s, az * c + aw * s, aw * c - az * s)

/-- gl-matrix `quat.setAxisAngle(out, axis, rad)` with abstract half-angle
sine and cosine: `(axis.x*s, axis.y*s, axis.z*s, c)`. -/
def quatSetAxisAngle (axis : QVec3) (s c : ℚ) : Quat :=
  (axis.1 * s, axis.2.1 * s, axis.2.2 * s, c)

/-- gl-matrix `vec3.transformQuat(out, a, q)`:
`out = a + 2*w*(qv × a) + 2*(qv × (qv × a))`. -/
def vec3TransformQuat (a : QVec3) (q : Quat) : QVec3 :=
  let qx := q.1; let qy := q.2.1; let qz := q.2.2.1; let qw := q.2.2.2
  let x := a.1; let y := a.2.1; let z := a.2.2
  let uvx := qy * z - qz * y
  let uvy := qz * x - qx * z
  let uvz := qx * y - qy * x
  let uuvx := qy * uvz - qz * uvy
  let uuvy := qz * uvx - qx * uvz
  let uuvz := qx * uvy - qy * uvx
  (x + uvx * (2 * qw) + uuvx * 2,
   y + uvy * (2 * qw) + uuvy * 2,
   z + uvz * (2 * qw) + uuvz * 2)

/-- gl-matrix `mat4.create()`: the identity matrix. -/
def mat4identity : Mat4 :=
  ⟨1, 0, 0, 0,  0, 1, 0, 0,  0, 0, 1, 0,  0, 0, 0, 1⟩

/-- gl-matrix `mat4.fromQuat`. -/
def mat4FromQuat (q : Quat) : Mat4 :=
  let x := q.1; let y := q.2.1; let z := q.2.2.1; let w := q.2.2.2
  let x2 := x + x; let y2 := y + y; let z2 := z + z
  let xx := x * x2; let yx := y * x2; let yy := y * y2
  let zx := z * x2; let zy := z * y2; let zz := z * z2
  let wx := w * x2; let wy := w * y2; let wz := w * z2
  ⟨1 - yy - zz, yx + wz, zx - wy, 0,
    yx - wz, 1 - xx - zz, zy + wx, 0,
    zx + wy, zy - wx, 1 - xx - yy, 0,
    0, 0, 0, 1⟩

/-- gl-matrix `mat4.fromTranslation`. -/
def mat4FromTranslation (v : QVec3) : Mat4 :=
  ⟨1, 0, 0, 0,  0, 1, 0, 0,  0, 0, 1, 0,  v.1, v.2.1, v.2.2, 1⟩

/-- gl-matrix `mat4.multiply(out, a, b)`: column `i` of `out` is `a`
applied to column `i` of `b` (column-major storage). -/
def mat4Multiply (a b : Mat4) : Mat4 :=
  ⟨b.m0 * a.m0 + b.m1 * a.m4 + b.m2 * a.m8 + b.m3 * a.m12,
    b.m0 * a.m1 + b.m1 * a.m5 + b.m2 * a.m9 + b.m3 * a.m13,
    b.m0 * a.m2 + b.m1 * a.m6 + b.m2 * a.m10 + b.m3 * a.m14,
    b.m0 * a.m3 + b.m1 * a.m7 + b.m2 * a.m11 + b.m3 * a.m15,
    b.m4 * a.m0 + b.m5 * a.m4 + b.m6 * a.m8 + b.m7 * a.m12,
    b.m4 * a.m1 + b.m5 * a.m5 + b.m6 * a.m9 + b.m7 * a.m13,
    b.m4 * a.m2 + b.m5 * a.m6 + b.m6 * a.m10 + b.m7 * a.m14,
    b.m4 * a.m3 + b.m5 * a.m7 + b.m6 * a.m11 + b.m7 * a.m15,
    b.m8 * a.m0 + b.m9 * a.m4 + b.m10 * a.m8 + b.m11 * a.m12,
    b.m8 * a.m1 + b.m9 * a.m5 + b.m10 * a.m9 + b.m11 * a.m13,
    b.m8 * a.m2 + b.m9 * a.m6 + b.m10 * a.m10 + b.m11 * a.m14,
    b.m8 * a.m3 + b.m9 * a.m7 + b.m10 * a.m11 + b.m11 * a.m15,
    b.m12 * a.m0 + b.m13 * a.m4 + b.m14 * a.m8 + b.m15 * a.m12,
    b.m12 * a.m1 + b.m13 * a.m5 + b.m14 * a.m9 + b.m15 * a.m13,
    b.m12 * a.m2 + b.m13 * a.m6 + b.m14 * a.m10 + b.m15 * a.m14,
    b.m12 * a.m3 + b.m13 * a.m7 + b.m14 * a.m11 + b.m15 * a.m15⟩

/-- gl-matrix `Math.hypot(a, b, c)` as used by `lookAt`, with the abstract
square root. -/
def hypot3 (sqrt : ℚ → ℚ) (a b c : ℚ) : ℚ := sqrt (a * a + b * b + c * c)

/-- gl-matrix `mat4.lookAt(out, eye, center, up)`: identity when `eye` and
`center` are within `EPSILON = 0.000001` on every axis; otherwise the
orthonormalized view basis with the negated dot products in the last
column.  `Math.sqrt` (inside `Math.hypot`) is abstracted by `sqrt`; the
`if (!len)` guards are the code's own zero tests. -/
def mat4LookAt (sqrt : ℚ → ℚ) (eye center up : QVec3) : Mat4 :=
  let eps : ℚ := 1 / 1000000
  let z0 := eye.1 - center.1
  let z1 := eye.2.1 - center.2.1
  let z2 := eye.2.2 - center.2.2
  if |z0| < eps ∧ |z1| < eps ∧ |z2| < eps then mat4identity
  else
    let lenz := 1 / hypot3 sqrt z0 z1 z2
    let z0 := z0 * lenz; let z1 := z1 * lenz; let z2 := z2 * lenz
    let x0 := up.2.1 * z2 - up.2.2 * z1
    let x1 := up.2.2 * z0 - up.1 * z2
    let x2 := up.1 * z1 - up.2.1 * z0
    let lenx := hypot3 sqrt x0 x1 x2
    let x0 := if lenx = 0 then 0 else x0 * (1 / lenx)
    let x1 := if lenx = 0 then 0 else x1 * (1 / lenx)
    let x2 := if lenx = 0 then 0 else x2 * (1 / lenx)
    let y0 := z1 * x2 - z2 * x1
    let y1 := z2 * x0 - z0 * x2
    let y2 := z0 * x1 - z1 * x0
    let leny := hypot3 sqrt y0 y1 y2
    let y0 := if leny = 0 then 0 else y0 * (1 / leny)
    let y1 := if leny = 0 then 0 else y1 * (1 / leny)
    let y2 := if leny = 0 then 0 else y2 * (1 / leny)
    ⟨x0, y0, z0, 0,
      x1, y1, z1, 0,
      x2, y2, z2, 0,
      -(x0 * eye.1 + x1 * eye.2.1 + x2 * eye.2.2),
      -(y0 * eye.1 + y1 * eye.2.1 + y2 * eye.2.2),
      -(z0 * eye.1 + z1 * eye.2.1 + z2 * eye.2.2), 1⟩

/-! ## The Camera class (`src/unnamed/part_000`) -/

/-- The fields of a `Camera` object. -/
structure Camera where
  eyePoint : QVec3
  up : QVec3
  viewPoint : QVec3
  translation : QVec3
  rotation : Quat
  lookDirection : QVec3
  lookAtMatrix : Mat4

namespace Camera

/-- The `Camera(origin, lookDirection)` constructor: `up = (0,1,0)`,
`viewPoint = eyePoint + lookDirection`, zero translation, identity
rotation, and `lookAtMatrix = mat4.lookAt(eyePoint, viewPoint, up)`. -/
def new (sqrt : ℚ → ℚ) (origin lookDirection : QVec3) : Camera :=
  let eyePoint := origin
  let up : QVec3 := (0, 1, 0)
  let viewPoint := qvec3add eyePoint lookDirection
  { eyePoint := eyePoint, up := up, viewPoint := viewPoint,
    translation := qvec3zero, rotation := quatCreate,
    lookDirection := lookDirection,
    lookAtMatrix := mat4LookAt sqrt eyePoint viewPoint up }

/-- `Camera.getViewMatrix`: `out = fromQuat(rotation) *
fromTranslation(translation)`, then `out = out * lookAtMatrix`; the JS
writes the result into its `outMatrix` argument, modelled as the return
value. -/
def getViewMatrix (c : Camera) : Mat4 :=
  let rot := mat4FromQuat c.rotation
  let trans := mat4FromTranslation c.translation
  mat4Multiply (mat4Multiply rot trans) c.lookAtMatrix

/-- `Camera.getLocalVector(x, y, z)`: the vector transformed by the
conjugate of the current rotation. -/
def getLocalVector (c : Camera) (x y z : ℚ) : QVec3 :=
  vec3TransformQuat (x, y, z) (quatConjugate c.rotation)

/-- `Camera.rotateX(degrees)`; `s`, `c` abstract the half-angle sine and
cosine of `-degToRad(degrees)`. -/
def rotateX (cam : Camera) (s c : ℚ) : Camera :=
  { cam with rotation := quatRotateX cam.rotation s c }

/-- `Camera.rotateY(degrees)` with abstract half-angle sine and cosine. -/
def rotateY (cam : Camera) (s c : ℚ) : Camera :=
  { cam with rotation := quatRotateY cam.rotation s c }

/-- `Camera.rotateZ(degrees)` with abstract half-angle sine and cosine. -/
def rotateZ (cam : Camera) (s c : ℚ) : Camera :=
  { cam with rotation := quatRotateZ cam.rotation s c }

/-- `Camera.rotateLocalX(degrees)`: axis-angle quaternion about the local
X axis, multiplied onto the rotation. -/
def rotateLocalX (cam : Camera) (s c : ℚ) : Camera :=
  let rotQuat := quatSetAxisAngle (cam.getLocalVector 1 0 0) s c
  { cam with rotation := quatMultiply cam.rotation rotQuat }

/-- `Camera.rotateLocalY(degrees)`. -/
def rotateLocalY (cam : Camera) (s c : ℚ) : Camera :=
  let rotQuat := quatSetAxisAngle (cam.getLocalVector 0 1 0) s c
  { cam with rotation := quatMultiply cam.rotation rotQuat }

/-- `Camera.rotateLocalZ(degrees)`. -/
def rotateLocalZ (cam : Camera) (s c : ℚ) : Camera :=
  let rotQuat := quatSetAxisAngle (cam.getLocalVector 0 0 1) s c
  { cam with rotation := quatMultiply cam.rotation rotQuat }

/-- `Camera.setWorldPos(x, y, z)`: overwrite the translation components. -/
def setWorldPos (cam : Camera) (x y z : ℚ) : Camera :=
  { cam with translation := (x, y, z) }

/-- `Camera.translate(x, y, z)`: `translation -= (x, y, z)`. -/
def translate (cam : Camera) (x y z : ℚ) : Camera :=
  { cam with translation := qvec3sub cam.translation (x, y, z) }

/-- `Camera.translateLocal(x, y, z)`: rotate the offset by the conjugate
rotation, then subtract it from the translation. -/
def translateLocal (cam : Camera) (x y z : ℚ) : Camera :=
  let amt := vec3TransformQuat (x, y, z) (quatConjugate cam.rotation)
  { cam with translation := qvec3sub cam.translation amt }

end Camera

/-- One call on a `Camera`, with the arguments the call's state change
depends on (rotations carry the abstract half-angle sine and cosine of
their host trigonometry).  `getViewMatrix` and `getLocalVector` are the
observers; they write no camera field. -/
inductive CameraOp where
  | rotX (s c : ℚ) | rotY (s c : ℚ) | rotZ (s c : ℚ)
  | rotLocalX (s c : ℚ) | rotLocalY (s c : ℚ) | rotLocalZ (s c : ℚ)
  | setWorldPos (x y z : ℚ) | translate (x y z : ℚ) | translateLocal (x y z : ℚ)
  | getViewMatrix | getLocalVector (x y z : ℚ)

/-- Apply one call to the camera state. -/
def applyOp (cam : Camera) : CameraOp → Camera
  | .rotX s c => cam.rotateX s c
  | .rotY s c => cam.rotateY s c
  | .rotZ s c => cam.rotateZ s c
  | .rotLocalX s c => cam.rotateLocalX s c
  | .rotLocalY s c => cam.rotateLocalY s c
  | .rotLocalZ s c => cam.rotateLocalZ s c
  | .setWorldPos x y z => cam.setWorldPos x y z
  | .translate x y z => cam.translate x y z
  | .translateLocal x y z => cam.translateLocal x y z
  | .getViewMatrix => cam
  | .getLocalVector _ _ _ => cam

/-- Apply a sequence of calls in order. -/
def applyOps (cam : Camera) (ops : List CameraOp) : Camera :=
  ops.foldl applyOp cam

/-! ## The Shader class and helpers (`src/Shader.js`, first document)

The WebGL context `gl` is abstracted by an environment recording, for each
source/type, whether compilation succeeds, and for each pair of attached
shaders, whether linking succeeds; `document` is abstracted by a map from
element ids to the script text `loadDOMScriptSource` extracts.  A JS `null`
return is `Option.none`. -/

/-- `gl.VERTEX_SHADER` / `gl.FRAGMENT_SHADER`. -/
inductive ShaderKind where
  | vertex | fragment
deriving DecidableEq

/-- A compiled WebGL shader handle, identified by what was compiled. -/
structure GLShader where
  source : String
  kind : ShaderKind
deriving DecidableEq

/-- A linked WebGL program handle, identified by its attached shaders. -/
structure GLProgram where
  vert : GLShader
  frag : GLShader
deriving DecidableEq

/-- The host environment `Shader.js` talks to: the DOM script sources and
the `gl` compile/link status oracles. -/
structure GLEnv where
  domSource : String → String
  compileOk : String → ShaderKind → Bool
  linkOk : GLShader → GLShader → Bool

/-- `compileShader(source, type)`: a compiled shader on success, `null`
(after an alert and a console log, not modelled) when
`gl.getShaderParameter(shader, gl.COMPILE_STATUS)` is false. -/
def compileShader (env : GLEnv) (source : String) (kind : ShaderKind) :
    Option GLShader :=
  if env.compileOk source kind then some ⟨source, kind⟩ else none

/-- `linkShaderProgram(vertShader, fragShader)`: a linked program on
success, `null` (after an alert and a console log) when
`gl.getProgramParameter(program, gl.LINK_STATUS)` is false. -/
def linkShaderProgram (env : GLEnv) (vertShader fragShader : GLShader) :
    Option GLProgram :=
  if env.linkOk vertShader fragShader then some ⟨vertShader, fragShader⟩ else none

/-- A `Shader` object: `new Shader(handle)` stores whatever handle it was
given — including `null`. -/
structure Shader where
  program : Option GLProgram
deriving DecidableEq

/-- `Shader.fromDOM(vertElem, fragElem)`: compile both sources; when both
compiled shaders are non-null, return `new Shader(linkShaderProgram(...))`
(note: the link result is passed to the constructor unchecked); otherwise
return `null`. -/
def Shader.fromDOM (env : GLEnv) (vertElem fragElem : String) : Option Shader :=
  let vertShader := compileShader env (env.domSource vertElem) ShaderKind.vertex
  let fragShader := compileShader env (env.domSource fragElem) ShaderKind.fragment
  match vertShader, fragShader with
  | some v, some f => some ⟨linkShaderProgram env v f⟩
  | _, _ => none

/-! ## The Texture class (`src/Texture.js`)

Image loading is asynchronous; it is modelled by a discrete-time
environment assigning each URL either a completion time (the tick at which
the host fires that image's `load` event) or no completion (a failed or
never-finishing load; the code installs no `error` handler).  A promise's
observable fate is `resolved` at a time, `rejected` at a time, or forever
`pending`. -/

/-- The face targets `gl.TEXTURE_CUBE_MAP_*`. -/
inductive CubeFace where
  | negX | negY | negZ | posX | posY | posZ
deriving DecidableEq

/-- A loaded JS `Image`, with the `extra` data `imageFromUrl` attaches. -/
structure ImageJS where
  src : String
  extra : Option CubeFace
deriving DecidableEq

/-- The host's image-loading behaviour: for each URL, the tick at which the
`load` event fires, or `none` when it never fires. -/
structure LoadEnv where
  loadTime : String → Option Nat

/-- The observable fate of a JS promise in the discrete-time model. -/
inductive PromiseFate (α : Type) where
  | resolved (t : Nat) (v : α)
  | rejected (t : Nat)
  | pending
deriving DecidableEq

/-- `Texture.imageFromUrl(url, extra)`: a promise whose executor installs
only an `onload` handler that resolves with the image (with `extra`
attached).  It resolves when the load event fires and is forever pending
when it never does; no path calls `reject`. -/
def Texture.imageFromUrl (env : LoadEnv) (url : String) (extra : Option CubeFace) :
    PromiseFate ImageJS :=
  match env.loadTime url with
  | some t => PromiseFate.resolved t ⟨url, extra⟩
  | none => PromiseFate.pending

/-- Joining one promise onto the join of the later ones: both resolved
joins the value in front at the later of the two times; a rejection
rejects; anything else leaves the join pending. -/
def promiseCombine {α : Type} : PromiseFate α → PromiseFate (List α) → PromiseFate (List α)
  | PromiseFate.resolved t v, PromiseFate.resolved t2 vs =>
    PromiseFate.resolved (max t t2) (v :: vs)
  | PromiseFate.rejected t, _ => PromiseFate.rejected t
  | _, PromiseFate.rejected t => PromiseFate.rejected t
  | _, _ => PromiseFate.pending

/-- Host `Promise.all`: resolves, with the values in input order, at the
time the last input resolves; rejected as soon as any input rejects;
otherwise pending.  (The promises joined here never reject.) -/
def promiseAll {α : Type} : List (PromiseFate α) → PromiseFate (List α)
  | [] => PromiseFate.resolved 0 []
  | p :: rest => promiseCombine p (promiseAll rest)

/-- The texture object the cubemap promise resolves with: its type tag and
the ordered list of `gl.texImage2D(values[i].extra.face, ..., values[i])`
uploads its `then` callback performed. -/
structure TextureV where
  cubeMap : Bool
  uploads : List (Option CubeFace × ImageJS)
deriving DecidableEq

/-- `Texture.cubemapFromUrl(negX, negY, negZ, posX, posY, posZ)`: six
`imageFromUrl` promises pushed in the order -X, -Y, -Z, +X, +Y, +Z, joined
with `Promise.all`; the outer promise resolves (with the uploaded texture)
only inside the `then` callback, so if the join never resolves neither
does the outer promise — there is no `catch` and no other `resolve` path. -/
def Texture.cubemapFromUrl (env : LoadEnv) (negX negY negZ posX posY posZ : String) :
    PromiseFate TextureV :=
  let promises :=
    [Texture.imageFromUrl env negX (some CubeFace.negX),
     Texture.imageFromUrl env negY (some CubeFace.negY),
     Texture.imageFromUrl env negZ (some CubeFace.negZ),
     Texture.imageFromUrl env posX (some CubeFace.posX),
     Texture.imageFromUrl env posY (some CubeFace.posY),
     Texture.imageFromUrl env posZ (some CubeFace.posZ)]
  match promiseAll promises with
  | PromiseFate.resolved t values =>
    PromiseFate.resolved t
      { cubeMap := true, uploads := values.map (fun v => (v.extra, v)) }
  | _ => PromiseFate.pending

/-! ## Preservation lemmas -/

@[simp] theorem generateNormals_vertices (s : ℚ → ℚ) (m : Mesh) :
    (m.generateNormals s).vertices = m.vertices := rfl

@[simp] theorem generateNormals_faces (s : ℚ → ℚ) (m : Mesh) :
    (m.generateNormals s).faces = m.faces := rfl

@[simp] theorem generateNormals_numVertices (s : ℚ → ℚ) (m : Mesh) :
    (m.generateNormals s).numVertices = m.numVertices := rfl

@[simp] theorem generateNormals_numFaces (s : ℚ → ℚ) (m : Mesh) :
    (m.generateNormals s).numFaces = m.numFaces := rfl

@[simp] theorem generateNormals_minXYZ (s : ℚ → ℚ) (m : Mesh) :
    (m.generateNormals s).minXYZ = m.minXYZ := rfl

@[simp] theorem generateNormals_maxXYZ (s : ℚ → ℚ) (m : Mesh) :
    (m.generateNormals s).maxXYZ = m.maxXYZ := rfl

@[simp] theorem computeAABB_vertices (m : Mesh) :
    m.computeAABB.vertices = m.vertices := rfl

@[simp] theorem computeAABB_faces (m : Mesh) :
    m.computeAABB.faces = m.faces := rfl

@[simp] theorem computeAABB_numVertices (m : Mesh) :
    m.computeAABB.numVertices = m.numVertices := rfl

@[simp] theorem computeAABB_numFaces (m : Mesh) :
    m.computeAABB.numFaces = m.numFaces := rfl

/-! ## Claim C3 (shader failure surfaced as null) -/

/-- A host in which every source compiles and linking always fails. -/
def linkFailEnv : GLEnv :=
  { domSource := fun _ => "src",
    compileOk := fun _ _ => true,
    linkOk := fun _ _ => false }

/-- Claim C3, counterexample: in a host where both shaders compile but the
program fails to link, `linkShaderProgram` returns null, yet
`Shader.fromDOM` does not return null — it returns a `Shader` object
wrapping the null program handle, so a caller checking `fromDOM`'s result
for null misses the link failure. -/
theorem fromDOM_link_failure_counterexample :
    linkShaderProgram linkFailEnv ⟨"src", ShaderKind.vertex⟩ ⟨"src", ShaderKind.fragment⟩ = none ∧
    Shader.fromDOM linkFailEnv "v" "f" = some ⟨none⟩ := by
  constructor <;> rfl

/-- Claim C3 amended: `compileShader` returns null exactly on compile
failure and `linkShaderProgram` returns null exactly on link failure, and
`Shader.fromDOM` returns null whenever either shader fails to compile; but
when both compile and linking fails, `fromDOM` returns a non-null `Shader`
whose `program` is null, so a null check on `fromDOM` detects compile
failures only. -/
theorem shader_null_on_failure_amended (env : GLEnv) (src : String)
    (k : ShaderKind) (v f : GLShader) (ve fe : String) :
    (env.compileOk src k = false → compileShader env src k = none) ∧
    (env.linkOk v f = false → linkShaderProgram env v f = none) ∧
    (env.compileOk (env.domSource ve) ShaderKind.vertex = false ∨
       env.compileOk (env.domSource fe) ShaderKind.fragment = false →
       Shader.fromDOM env ve fe = none) ∧
    (env.compileOk (env.domSource ve) ShaderKind.vertex = true →
       env.compileOk (env.domSource fe) ShaderKind.fragment = true →
       env.linkOk ⟨env.domSource ve, ShaderKind.vertex⟩
         ⟨env.domSource fe, ShaderKind.fragment⟩ = false →
       Shader.fromDOM env ve fe = some ⟨none⟩) := by
  refine ⟨fun h => ?_, fun h => ?_, fun h => ?_, fun h1 h2 h3 => ?_⟩
  · simp [compileShader, h]
  · simp [linkShaderProgram, h]
  · rcases h with h | h <;> simp [Shader.fromDOM, compileShader, h]
  · simp [Shader.fromDOM, compileShader, linkShaderProgram, h1, h2, h3]

/-- A host in which exactly the DOM source `"bad"` fails to compile and
every link fails. -/
def shaderWitEnv : GLEnv :=
  { domSource := fun s => s,
    compileOk := fun s _ => decide (s ≠ "bad"),
    linkOk := fun _ _ => false }

/-- Witness for the amended C3 theorem at a concrete host. -/
theorem shader_null_on_failure_amended_witness :
    (compileShader shaderWitEnv "bad" ShaderKind.vertex = none ∧
      Shader.fromDOM shaderWitEnv "bad" "f" = none) ∧
    (linkShaderProgram shaderWitEnv ⟨"s", ShaderKind.vertex⟩ ⟨"s", ShaderKind.fragment⟩ = none ∧
      Shader.fromDOM shaderWitEnv "v" "f" = some ⟨none⟩) := by
  have h1 := shader_null_on_failure_amended shaderWitEnv "bad" ShaderKind.vertex
    ⟨"s", ShaderKind.vertex⟩ ⟨"s", ShaderKind.fragment⟩ "bad" "f"
  have h2 := shader_null_on_failure_amended shaderWitEnv "bad" ShaderKind.vertex
    ⟨"s", ShaderKind.vertex⟩ ⟨"s", ShaderKind.fragment⟩ "v" "f"
  exact ⟨⟨h1.1 (by decide), h1.2.2.1 (Or.inl (by decide))⟩,
         ⟨h2.2.1 (by decide), h2.2.2.2 (by decide) (by decide) (by decide)⟩⟩

/-! ## Claim C6 (fresh camera view matrix is the look-at matrix) -/

theorem mat4Multiply_id_left (b : Mat4) : mat4Multiply mat4identity b = b := by
  cases b
  simp [mat4Multiply, mat4identity]

/-- Claim C6: for every camera fresh from the constructor (rotation is the
identity quaternion, translation is the zero vector), `getViewMatrix`
produces exactly the look-at matrix the constructor built from the eye
point, the view point `eye + lookDirection` and the up vector `(0,1,0)` —
for every abstract square root interpreting `Math.sqrt`. -/
theorem getViewMatrix_initial_lookAt (sqrt : ℚ → ℚ) (origin lookDir : QVec3) :
    (Camera.new sqrt origin lookDir).getViewMatrix =
      mat4LookAt sqrt origin (qvec3add origin lookDir) (0, 1, 0) := by
  have hq : mat4FromQuat quatCreate = mat4identity := by
    simp [mat4FromQuat, quatCreate, mat4identity]
  have ht : mat4FromTranslation qvec3zero = mat4identity := by
    simp [mat4FromTranslation, qvec3zero, mat4identity]
  show mat4Multiply (mat4Multiply (mat4FromQuat quatCreate)
      (mat4FromTranslation qvec3zero)) (mat4LookAt sqrt origin (qvec3add origin lookDir) (0, 1, 0)) = _
  rw [hq, ht, mat4Multiply_id_left, mat4Multiply_id_left]

/-! ## Claim C9 (mutating camera calls touch only rotation and translation) -/

/-- Claim C9: under every sequence of camera method calls, the fields
`eyePoint`, `up`, `viewPoint`, `lookDirection` and `lookAtMatrix` keep the
values the constructor gave them; only `rotation` and `translation` ever
change. -/
theorem camera_ops_preserve_fields (cam : Camera) (ops : List CameraOp) :
    (applyOps cam ops).eyePoint = cam.eyePoint ∧
    (applyOps cam ops).up = cam.up ∧
    (applyOps cam ops).viewPoint = cam.viewPoint ∧
    (applyOps cam ops).lookDirection = cam.lookDirection ∧
    (applyOps cam ops).lookAtMatrix = cam.lookAtMatrix := by
  induction ops generalizing cam with
  | nil => exact ⟨rfl, rfl, rfl, rfl, rfl⟩
  | cons op rest ih =>
    have hstep : applyOps cam (op :: rest) = applyOps (applyOp cam op) rest := rfl
    have hop : (applyOp cam op).eyePoint = cam.eyePoint ∧
        (applyOp cam op).up = cam.up ∧
        (applyOp cam op).viewPoint = cam.viewPoint ∧
        (applyOp cam op).lookDirection = cam.lookDirection ∧
        (applyOp cam op).lookAtMatrix = cam.lookAtMatrix := by
      cases op <;> exact ⟨rfl, rfl, rfl, rfl, rfl⟩
    have h := ih (applyOp cam op)
    rw [hstep]
    exact ⟨h.1.trans hop.1, h.2.1.trans hop.2.1, h.2.2.1.trans hop.2.2.1,
           h.2.2.2.1.trans hop.2.2.2.1, h.2.2.2.2.trans hop.2.2.2.2⟩

/-! ## Claim C10 (fromPlane with an unknown axis) -/

/-- Claim C10: for an axis argument other than `x`/`X`/`y`/`Z`-style
names, `fromPlane` pushes no vertices yet still pushes faces `(0,1,2)` and
`(0,2,3)` and sets `numVertices = 4`, `numFaces = 2`; every face index
then refers to a vertex that does not exist, and `getVertex` on it reads
out of bounds, yielding a vector of `NaN`s. -/
theorem fromPlane_invalid_axis (sqrt : ℚ → ℚ) (axis : List Char)
    (hz : axis ≠ ['z']) (hZ : axis ≠ ['Z']) (hx : axis ≠ ['x']) (hX : axis ≠ ['X'])
    (hy : axis ≠ ['y']) (hY : axis ≠ ['Y']) :
    (Mesh.fromPlane sqrt axis).vertices = [] ∧
    (Mesh.fromPlane sqrt axis).faces =
      [JSNum.num 0, JSNum.num 1, JSNum.num 2, JSNum.num 0, JSNum.num 2, JSNum.num 3] ∧
    (Mesh.fromPlane sqrt axis).numVertices = 4 ∧
    (Mesh.fromPlane sqrt axis).numFaces = 2 ∧
    ∀ f ∈ (Mesh.fromPlane sqrt axis).faces,
      (Mesh.fromPlane sqrt axis).getVertex f = (JSNum.nan, JSNum.nan, JSNum.nan) := by
  have hverts : (Mesh.fromPlane sqrt axis).vertices = [] := by
    simp [Mesh.fromPlane, hz, hZ, hx, hX, hy, hY, Mesh.new]
  have hfaces : (Mesh.fromPlane sqrt axis).faces =
      [JSNum.num 0, JSNum.num 1, JSNum.num 2, JSNum.num 0, JSNum.num 2, JSNum.num 3] := by
    simp [Mesh.fromPlane, hz, hZ, hx, hX, hy, hY, Mesh.new]
  refine ⟨hverts, hfaces, ?_, ?_, ?_⟩
  · simp [Mesh.fromPlane, hz, hZ, hx, hX, hy, hY]
  · simp [Mesh.fromPlane, hz, hZ, hx, hX, hy, hY]
  · intro f hf
    have hnil : ∀ i : JSNum, arrGet [] i = JSNum.nan := by
      intro i; unfold arrGet; cases jsIdx i <;> rfl
    simp only [Mesh.getVertex, hverts, hnil]

/-- Witness for C10 at the concrete axis string `"w"`. -/
theorem fromPlane_invalid_axis_witness :
    (Mesh.fromPlane (fun q => q) ['w']).vertices = [] ∧
    (Mesh.fromPlane (fun q => q) ['w']).faces =
      [JSNum.num 0, JSNum.num 1, JSNum.num 2, JSNum.num 0, JSNum.num 2, JSNum.num 3] ∧
    (Mesh.fromPlane (fun q => q) ['w']).numVertices = 4 ∧
    (Mesh.fromPlane (fun q => q) ['w']).numFaces = 2 ∧
    ∀ f ∈ (Mesh.fromPlane (fun q => q) ['w']).faces,
      (Mesh.fromPlane (fun q => q) ['w']).getVertex f = (JSNum.nan, JSNum.nan, JSNum.nan) :=
  fromPlane_invalid_axis (fun q => q) ['w'] (by decide) (by decide) (by decide)
    (by decide) (by decide) (by decide)

/-! ## Claims C5 and C8 (cubemap promise joining and image-load promises) -/

theorem promiseAll_not_rejected {α : Type} (ps : List (PromiseFate α))
    (h : ∀ p ∈ ps, ∀ t, p ≠ PromiseFate.rejected t) :
    ∀ t, promiseAll ps ≠ PromiseFate.rejected t := by
  induction ps with
  | nil => intro t; simp [promiseAll]
  | cons p rest ih =>
    intro t hc
    have hp := h p (List.mem_cons_self p rest)
    have hrest := ih (fun q hq => h q (List.mem_cons_of_mem p hq))
    rw [show promiseAll (p :: rest) = promiseCombine p (promiseAll rest) from rfl] at hc
    cases p with
    | resolved tp v =>
      cases hr : promiseAll rest with
      | resolved t2 vs => rw [hr] at hc; exact absurd hc (by simp [promiseCombine])
      | rejected t2 => exact hrest t2 hr
      | pending => rw [hr] at hc; exact absurd hc (by simp [promiseCombine])
    | rejected tp => exact hp tp rfl
    | pending =>
      cases hr : promiseAll rest with
      | resolved t2 vs => rw [hr] at hc; exact absurd hc (by simp [promiseCombine])
      | rejected t2 => exact hrest t2 hr
      | pending => rw [hr] at hc; exact absurd hc (by simp [promiseCombine])

theorem promiseAll_pending_of_mem_pending {α : Type} (ps : List (PromiseFate α))
    (hp : PromiseFate.pending ∈ ps) :
    ∀ t (vs : List α), promiseAll ps ≠ PromiseFate.resolved t vs := by
  induction ps with
  | nil => cases hp
  | cons p rest ih =>
    intro t vs hc
    rw [show promiseAll (p :: rest) = promiseCombine p (promiseAll rest) from rfl] at hc
    rcases List.mem_cons.mp hp with hhead | htail
    · rw [← hhead] at hc
      cases hr : promiseAll rest with
      | resolved t2 vs2 => rw [hr] at hc; exact absurd hc (by simp [promiseCombine])
      | rejected t2 => rw [hr] at hc; exact absurd hc (by simp [promiseCombine])
      | pending => rw [hr] at hc; exact absurd hc (by simp [promiseCombine])
    · have hrest := ih htail
      cases p with
      | resolved tp v =>
        cases hr : promiseAll rest with
        | resolved t2 vs2 =>
          rw [hr] at hc
          simp only [promiseCombine] at hc
          exact hrest t2 vs2 hr
        | rejected t2 => rw [hr] at hc; exact absurd hc (by simp [promiseCombine])
        | pending => rw [hr] at hc; exact absurd hc (by simp [promiseCombine])
      | rejected tp => exact absurd hc (by simp [promiseCombine])
      | pending =>
        cases hr : promiseAll rest with
        | resolved t2 vs2 =>
          rw [hr] at hc
          exact absurd hc (by simp [promiseCombine])
        | rejected t2 => rw [hr] at hc; exact absurd hc (by simp [promiseCombine])
        | pending => rw [hr] at hc; exact absurd hc (by simp [promiseCombine])

/-- Claim C5: whenever the cubemap promise resolves, every one of the six
face loads has completed, each at a tick no later than the resolution
tick; and the `texImage2D` uploads happen in exactly the order the faces
were requested: -X, -Y, -Z, +X, +Y, +Z (with the images for the
corresponding URLs). -/
theorem cubemapFromUrl_resolves_after_all_loads (env : LoadEnv)
    (u1 u2 u3 u4 u5 u6 : String) (t : Nat) (tex : TextureV)
    (h : Texture.cubemapFromUrl env u1 u2 u3 u4 u5 u6 = PromiseFate.resolved t tex) :
    (∀ u ∈ [u1, u2, u3, u4, u5, u6], ∃ tu, env.loadTime u = some tu ∧ tu ≤ t) ∧
    tex.uploads.map Prod.fst =
      [some CubeFace.negX, some CubeFace.negY, some CubeFace.negZ,
       some CubeFace.posX, some CubeFace.posY, some CubeFace.posZ] ∧
    tex.uploads.map (fun p => p.2.src) = [u1, u2, u3, u4, u5, u6] := by
  unfold Texture.cubemapFromUrl Texture.imageFromUrl at h
  rcases h1 : env.loadTime u1 with _ | t1 <;> rw [h1] at h <;>
    rcases h2 : env.loadTime u2 with _ | t2 <;> rw [h2] at h <;>
    rcases h3 : env.loadTime u3 with _ | t3 <;> rw [h3] at h <;>
    rcases h4 : env.loadTime u4 with _ | t4 <;> rw [h4] at h <;>
    rcases h5 : env.loadTime u5 with _ | t5 <;> rw [h5] at h <;>
    rcases h6 : env.loadTime u6 with _ | t6 <;> rw [h6] at h <;>
    simp only [promiseAll, promiseCombine] at h
  all_goals try exact PromiseFate.noConfusion h
  obtain ⟨ht, htex⟩ := PromiseFate.resolved.inj h
  subst ht; subst htex
  refine ⟨?_, by simp, by simp⟩
  intro u hu
  simp only [List.mem_cons, List.not_mem_nil, or_false] at hu
  rcases hu with rfl | rfl | rfl | rfl | rfl | rfl
  · exact ⟨t1, h1, by omega⟩
  · exact ⟨t2, h2, by omega⟩
  · exact ⟨t3, h3, by omega⟩
  · exact ⟨t4, h4, by omega⟩
  · exact ⟨t5, h5, by omega⟩
  · exact ⟨t6, h6, by omega⟩

/-- The host in which every image load completes at tick 2. -/
def cubemapWitEnv : LoadEnv := ⟨fun _ => some 2⟩

/-- Witness for C5 at a concrete host where all six loads finish at tick 2. -/
theorem cubemapFromUrl_resolves_after_all_loads_witness :
    (∀ u ∈ ["a", "b", "c", "d", "e", "f"], ∃ tu, cubemapWitEnv.loadTime u = some tu ∧ tu ≤ 2) ∧
    List.map Prod.fst (TextureV.uploads
        ⟨true, [(some CubeFace.negX, ⟨"a", some CubeFace.negX⟩),
                (some CubeFace.negY, ⟨"b", some CubeFace.negY⟩),
                (some CubeFace.negZ, ⟨"c", some CubeFace.negZ⟩),
                (some CubeFace.posX, ⟨"d", some CubeFace.posX⟩),
                (some CubeFace.posY, ⟨"e", some CubeFace.posY⟩),
                (some CubeFace.posZ, ⟨"f", some CubeFace.posZ⟩)]⟩) =
      [some CubeFace.negX, some CubeFace.negY, some CubeFace.negZ,
       some CubeFace.posX, some CubeFace.posY, some CubeFace.posZ] ∧
    List.map (fun p => p.2.src) (TextureV.uploads
        ⟨true, [(some CubeFace.negX, ⟨"a", some CubeFace.negX⟩),
                (some CubeFace.negY, ⟨"b", some CubeFace.negY⟩),
                (some CubeFace.negZ, ⟨"c", some CubeFace.negZ⟩),
                (some CubeFace.posX, ⟨"d", some CubeFace.posX⟩),
                (some CubeFace.posY, ⟨"e", some CubeFace.posY⟩),
                (some CubeFace.posZ, ⟨"f", some CubeFace.posZ⟩)]⟩) =
      ["a", "b", "c", "d", "e", "f"] :=
  cubemapFromUrl_resolves_after_all_loads cubemapWitEnv "a" "b" "c" "d" "e" "f" 2
    ⟨true, [(some CubeFace.negX, ⟨"a", some CubeFace.negX⟩),
            (some CubeFace.negY, ⟨"b", some CubeFace.negY⟩),
            (some CubeFace.negZ, ⟨"c", some CubeFace.negZ⟩),
            (some CubeFace.posX, ⟨"d", some CubeFace.posX⟩),
            (some CubeFace.posY, ⟨"e", some CubeFace.posY⟩),
            (some CubeFace.posZ, ⟨"f", some CubeFace.posZ⟩)]⟩ rfl

theorem imageFromUrl_ne_rejected (env : LoadEnv) (url : String)
    (ex : Option CubeFace) (t : Nat) :
    Texture.imageFromUrl env url ex ≠ PromiseFate.rejected t := by
  unfold Texture.imageFromUrl
  cases env.loadTime url <;> simp

theorem imageFromUrl_pending_of_none (env : LoadEnv) (url : String)
    (ex : Option CubeFace) (h : env.loadTime url = none) :
    Texture.imageFromUrl env url ex = PromiseFate.pending := by
  unfold Texture.imageFromUrl
  rw [h]

/-- Claim C8: an `imageFromUrl` promise never rejects (no handler ever
calls `reject`); when the load event for its URL never fires, it is
forever pending rather than resolving or rejecting, and a cubemap promise
joining such a face promise is forever pending as well. -/
theorem imageFromUrl_never_rejects (env : LoadEnv) (url : String)
    (extra : Option CubeFace) (u1 u2 u3 u4 u5 u6 : String)
    (hfail : env.loadTime url = none)
    (hface : ∃ u ∈ [u1, u2, u3, u4, u5, u6], env.loadTime u = none) :
    (∀ env2 : LoadEnv, ∀ url2 : String, ∀ ex2 : Option CubeFace, ∀ t : Nat,
       Texture.imageFromUrl env2 url2 ex2 ≠ PromiseFate.rejected t) ∧
    Texture.imageFromUrl env url extra = PromiseFate.pending ∧
    Texture.cubemapFromUrl env u1 u2 u3 u4 u5 u6 = PromiseFate.pending := by
  refine ⟨fun env2 url2 ex2 t => imageFromUrl_ne_rejected env2 url2 ex2 t,
    imageFromUrl_pending_of_none env url extra hfail, ?_⟩
  obtain ⟨u, hu, hnone⟩ := hface
  simp only [List.mem_cons, List.not_mem_nil, or_false] at hu
  have hnr : ∀ p ∈ [Texture.imageFromUrl env u1 (some CubeFace.negX),
      Texture.imageFromUrl env u2 (some CubeFace.negY),
      Texture.imageFromUrl env u3 (some CubeFace.negZ),
      Texture.imageFromUrl env u4 (some CubeFace.posX),
      Texture.imageFromUrl env u5 (some CubeFace.posY),
      Texture.imageFromUrl env u6 (some CubeFace.posZ)],
      ∀ t, p ≠ PromiseFate.rejected t := by
    intro p hp t
    simp only [List.mem_cons, List.not_mem_nil, or_false] at hp
    rcases hp with rfl | rfl | rfl | rfl | rfl | rfl <;>
      apply imageFromUrl_ne_rejected
  have hpend : PromiseFate.pending ∈ [Texture.imageFromUrl env u1 (some CubeFace.negX),
      Texture.imageFromUrl env u2 (some CubeFace.negY),
      Texture.imageFromUrl env u3 (some CubeFace.negZ),
      Texture.imageFromUrl env u4 (some CubeFace.posX),
      Texture.imageFromUrl env u5 (some CubeFace.posY),
      Texture.imageFromUrl env u6 (some CubeFace.posZ)] := by
    rcases hu with rfl | rfl | rfl | rfl | rfl | rfl <;>
      simp [List.mem_cons, imageFromUrl_pending_of_none, hnone]
  have hall : promiseAll [Texture.imageFromUrl env u1 (some CubeFace.negX),
      Texture.imageFromUrl env u2 (some CubeFace.negY),
      Texture.imageFromUrl env u3 (some CubeFace.negZ),
      Texture.imageFromUrl env u4 (some CubeFace.posX),
      Texture.imageFromUrl env u5 (some CubeFace.posY),
      Texture.imageFromUrl env u6 (some CubeFace.posZ)] = PromiseFate.pending := by
    cases h2 : promiseAll [Texture.imageFromUrl env u1 (some CubeFace.negX),
        Texture.imageFromUrl env u2 (some CubeFace.negY),
        Texture.imageFromUrl env u3 (some CubeFace.negZ),
        Texture.imageFromUrl env u4 (some CubeFace.posX),
        Texture.imageFromUrl env u5 (some CubeFace.posY),
        Texture.imageFromUrl env u6 (some CubeFace.posZ)] with
    | resolved t vs => exact absurd h2 (promiseAll_pending_of_mem_pending _ hpend t vs)
    | rejected t => exact absurd h2 (promiseAll_not_rejected _ hnr t)
    | pending => rfl
  simp only [Texture.cubemapFromUrl]
  rw [hall]

/-- The host in which no image load ever completes. -/
def neverLoadEnv : LoadEnv := ⟨fun _ => none⟩

/-- Witness for C8 at a concrete host where no load ever finishes. -/
theorem imageFromUrl_never_rejects_witness :
    (∀ env2 : LoadEnv, ∀ url2 : String, ∀ ex2 : Option CubeFace, ∀ t : Nat,
       Texture.imageFromUrl env2 url2 ex2 ≠ PromiseFate.rejected t) ∧
    Texture.imageFromUrl neverLoadEnv "a" none = PromiseFate.pending ∧
    Texture.cubemapFromUrl neverLoadEnv "a" "b" "c" "d" "e" "f" = PromiseFate.pending :=
  imageFromUrl_never_rejects neverLoadEnv "a" none "a" "b" "c" "d" "e" "f" rfl
    ⟨"a", by simp, rfl⟩

/-! ## Claim C1 (AABB versus the true coordinate-wise min/max) -/

/-- A vertex list given as point triples, flattened the way
`mesh.vertices.push(x, y, z)` stores it. -/
def flatTriples (ts : List (ℚ × ℚ × ℚ)) : List JSNum :=
  (ts.map (fun p => [JSNum.num p.1, JSNum.num p.2.1, JSNum.num p.2.2])).flatten

theorem ite_lt_min (q a : ℚ) : (if q < a then q else a) = min a q := by
  rcases lt_or_le q a with h | h
  · rw [if_pos h, min_eq_right h.le]
  · rw [if_neg (not_lt.mpr h), min_eq_left h]

theorem ite_lt_max (q d : ℚ) : (if d < q then q else d) = max d q := by
  rcases lt_or_le d q with h | h
  · rw [if_pos h, max_eq_right h.le]
  · rw [if_neg (not_lt.mpr h), max_eq_left h]

theorem aabbUpdate_num (q a d : ℚ) :
    Mesh.aabbUpdate (JSNum.num q) (JSNum.num a) (JSNum.num d) =
      (JSNum.num (min a q), JSNum.num (max d q)) := by
  unfold Mesh.aabbUpdate
  simp only [JSNum.lt_num_num, decide_eq_true_eq, ← apply_ite JSNum.num,
    ite_lt_min, ite_lt_max]

theorem computeAABBGo_num (ts : List (ℚ × ℚ × ℚ)) (a b c d e f : ℚ) :
    Mesh.computeAABBGo (flatTriples ts)
      (JSNum.num a, JSNum.num b, JSNum.num c)
      (JSNum.num d, JSNum.num e, JSNum.num f) =
    ((JSNum.num ((ts.map (fun p => p.1)).foldl min a),
      JSNum.num ((ts.map (fun p => p.2.1)).foldl min b),
      JSNum.num ((ts.map (fun p => p.2.2)).foldl min c)),
     (JSNum.num ((ts.map (fun p => p.1)).foldl max d),
      JSNum.num ((ts.map (fun p => p.2.1)).foldl max e),
      JSNum.num ((ts.map (fun p => p.2.2)).foldl max f))) := by
  induction ts generalizing a b c d e f with
  | nil => rfl
  | cons p rest ih =>
    have hflat : flatTriples (p :: rest) =
        JSNum.num p.1 :: JSNum.num p.2.1 :: JSNum.num p.2.2 :: flatTriples rest := by
      simp [flatTriples]
    rw [hflat]
    simp only [Mesh.computeAABBGo, Mesh.aabbStep, aabbUpdate_num]
    rw [ih]
    simp [List.foldl_cons, List.map_cons]

/-- Claim C1 amended: `computeAABB` folds each coordinate into the
constructor-initialized bounds `[0,0,0]`, so for every vertex list the
stored `minXYZ` (resp. `maxXYZ`) per axis is the minimum (resp. maximum)
of `0` and the true coordinate-wise minimum (resp. maximum) — not the true
min/max themselves. -/
theorem computeAABB_min_max_amended (ts : List (ℚ × ℚ × ℚ)) :
    (Mesh.computeAABB { Mesh.new with vertices := flatTriples ts }).minXYZ =
      (JSNum.num ((ts.map (fun p => p.1)).foldl min 0),
       JSNum.num ((ts.map (fun p => p.2.1)).foldl min 0),
       JSNum.num ((ts.map (fun p => p.2.2)).foldl min 0)) ∧
    (Mesh.computeAABB { Mesh.new with vertices := flatTriples ts }).maxXYZ =
      (JSNum.num ((ts.map (fun p => p.1)).foldl max 0),
       JSNum.num ((ts.map (fun p => p.2.1)).foldl max 0),
       JSNum.num ((ts.map (fun p => p.2.2)).foldl max 0)) := by
  have h := computeAABBGo_num ts 0 0 0 0 0 0
  constructor <;> simp [Mesh.computeAABB, Mesh.new, h]

/-- Claim C1, counterexample: loading the single-vertex OBJ text
`v 1 2 3` (a mesh lying strictly inside the positive octant) leaves
`minXYZ = [0,0,0]`, which differs from the true coordinate-wise minimum
`(1, 2, 3)` — the bounds start at zero and only widen. -/
theorem computeAABB_fromObj_counterexample :
    (Mesh.fromObj (fun q => q) ['v', ' ', '1', ' ', '2', ' ', '3']).vertices =
      [JSNum.num 1, JSNum.num 2, JSNum.num 3] ∧
    (Mesh.fromObj (fun q => q) ['v', ' ', '1', ' ', '2', ' ', '3']).minXYZ =
      (JSNum.num 0, JSNum.num 0, JSNum.num 0) ∧
    (JSNum.num 0, JSNum.num 0, JSNum.num 0) ≠
      ((JSNum.num 1, JSNum.num 2, JSNum.num 3) : JVec3) := by
  refine ⟨?_, ?_, ?_⟩
  · simp [Mesh.fromObj, Mesh.objLine, splitSpaces, splitOnChar, splitOnCharGo,
      collapseMid, parseFloatJS, parseIntJS, parseSign, digitsToNat, digitVal, Mesh.new]
  · simp [Mesh.fromObj, Mesh.objLine, splitSpaces, splitOnChar, splitOnCharGo,
      collapseMid, parseFloatJS, parseIntJS, parseSign, digitsToNat, digitVal, Mesh.new,
      Mesh.computeAABB, Mesh.computeAABBGo, Mesh.aabbStep, Mesh.aabbUpdate]
    norm_num
  · intro hc
    have h0 : (JSNum.num 0) = (JSNum.num 1) := congrArg Prod.fst hc
    have h1 : (0 : ℚ) = 1 := JSNum.num.inj h0
    norm_num at h1

/-! ## Literal-index reductions for the JS array accesses -/

theorem jsIdx_lit0 : jsIdx (JSNum.num 0) = some 0 := by
  simp [jsIdx]

theorem jsIdx_lit1 : jsIdx (JSNum.num 1) = some 1 := by
  simp [jsIdx]

theorem jsIdx_lit2 : jsIdx (JSNum.num 2) = some 2 := by
  simp [jsIdx]

theorem jsIdx_lit3 : jsIdx (JSNum.num 3) = some 3 := by
  simp [jsIdx]

theorem jsIdx_lit4 : jsIdx (JSNum.num 4) = some 4 := by
  simp [jsIdx]

theorem jsIdx_lit5 : jsIdx (JSNum.num 5) = some 5 := by
  simp [jsIdx]

theorem jsIdx_lit6 : jsIdx (JSNum.num 6) = some 6 := by
  simp [jsIdx]

theorem jsIdx_lit7 : jsIdx (JSNum.num 7) = some 7 := by
  simp [jsIdx]

theorem jsIdx_lit8 : jsIdx (JSNum.num 8) = some 8 := by
  simp [jsIdx]

theorem arrGet_lit0 (l : List JSNum) : arrGet l (JSNum.num 0) = l.getD 0 JSNum.nan := by
  simp only [arrGet, jsIdx_lit0]

theorem arrGet_lit1 (l : List JSNum) : arrGet l (JSNum.num 1) = l.getD 1 JSNum.nan := by
  simp only [arrGet, jsIdx_lit1]

theorem arrGet_lit2 (l : List JSNum) : arrGet l (JSNum.num 2) = l.getD 2 JSNum.nan := by
  simp only [arrGet, jsIdx_lit2]

theorem arrGet_lit3 (l : List JSNum) : arrGet l (JSNum.num 3) = l.getD 3 JSNum.nan := by
  simp only [arrGet, jsIdx_lit3]

theorem arrGet_lit4 (l : List JSNum) : arrGet l (JSNum.num 4) = l.getD 4 JSNum.nan := by
  simp only [arrGet, jsIdx_lit4]

theorem arrGet_lit5 (l : List JSNum) : arrGet l (JSNum.num 5) = l.getD 5 JSNum.nan := by
  simp only [arrGet, jsIdx_lit5]

theorem arrGet_lit6 (l : List JSNum) : arrGet l (JSNum.num 6) = l.getD 6 JSNum.nan := by
  simp only [arrGet, jsIdx_lit6]

theorem arrGet_lit7 (l : List JSNum) : arrGet l (JSNum.num 7) = l.getD 7 JSNum.nan := by
  simp only [arrGet, jsIdx_lit7]

theorem arrGet_lit8 (l : List JSNum) : arrGet l (JSNum.num 8) = l.getD 8 JSNum.nan := by
  simp only [arrGet, jsIdx_lit8]

theorem arrAddAt_lit0 (l : List JSNum) (v : JSNum) :
    arrAddAt l (JSNum.num 0) v =
      if 0 < l.length then l.set 0 (l.getD 0 JSNum.nan + v) else l := by
  simp only [arrAddAt, jsIdx_lit0]

theorem arrAddAt_lit1 (l : List JSNum) (v : JSNum) :
    arrAddAt l (JSNum.num 1) v =
      if 1 < l.length then l.set 1 (l.getD 1 JSNum.nan + v) else l := by
  simp only [arrAddAt, jsIdx_lit1]

theorem arrAddAt_lit2 (l : List JSNum) (v : JSNum) :
    arrAddAt l (JSNum.num 2) v =
      if 2 < l.length then l.set 2 (l.getD 2 JSNum.nan + v) else l := by
  simp only [arrAddAt, jsIdx_lit2]

theorem arrAddAt_lit3 (l : List JSNum) (v : JSNum) :
    arrAddAt l (JSNum.num 3) v =
      if 3 < l.length then l.set 3 (l.getD 3 JSNum.nan + v) else l := by
  simp only [arrAddAt, jsIdx_lit3]

theorem arrAddAt_lit4 (l : List JSNum) (v : JSNum) :
    arrAddAt l (JSNum.num 4) v =
      if 4 < l.length then l.set 4 (l.getD 4 JSNum.nan + v) else l := by
  simp only [arrAddAt, jsIdx_lit4]

theorem arrAddAt_lit5 (l : List JSNum) (v : JSNum) :
    arrAddAt l (JSNum.num 5) v =
      if 5 < l.length then l.set 5 (l.getD 5 JSNum.nan + v) else l := by
  simp only [arrAddAt, jsIdx_lit5]

theorem arrAddAt_lit6 (l : List JSNum) (v : JSNum) :
    arrAddAt l (JSNum.num 6) v =
      if 6 < l.length then l.set 6 (l.getD 6 JSNum.nan + v) else l := by
  simp only [arrAddAt, jsIdx_lit6]

theorem arrAddAt_lit7 (l : List JSNum) (v : JSNum) :
    arrAddAt l (JSNum.num 7) v =
      if 7 < l.length then l.set 7 (l.getD 7 JSNum.nan + v) else l := by
  simp only [arrAddAt, jsIdx_lit7]

theorem arrAddAt_lit8 (l : List JSNum) (v : JSNum) :
    arrAddAt l (JSNum.num 8) v =
      if 8 < l.length then l.set 8 (l.getD 8 JSNum.nan + v) else l := by
  simp only [arrAddAt, jsIdx_lit8]

/-! ## Claim C2 (normal generation for a single triangle) -/

theorem genFace_single_triangle (x1 y1 z1 x2 y2 z2 x3 y3 z3 : ℚ) :
    Mesh.genFace
      { vertices := [JSNum.num x1, JSNum.num y1, JSNum.num z1,
                     JSNum.num x2, JSNum.num y2, JSNum.num z2,
                     JSNum.num x3, JSNum.num y3, JSNum.num z3],
        faces := [JSNum.num 0, JSNum.num 1, JSNum.num 2], normals := [],
        numFaces := 1, numVertices := 3, numNormals := 0,
        minXYZ := (JSNum.num 0, JSNum.num 0, JSNum.num 0),
        maxXYZ := (JSNum.num 0, JSNum.num 0, JSNum.num 0) }
      (List.replicate 9 (JSNum.num 0)) 0 =
    [JSNum.num ((y2 - y1) * (z3 - z1) - (z2 - z1) * (y3 - y1)),
     JSNum.num ((z2 - z1) * (x3 - x1) - (x2 - x1) * (z3 - z1)),
     JSNum.num ((x2 - x1) * (y3 - y1) - (y2 - y1) * (x3 - x1)),
     JSNum.num ((y2 - y1) * (z3 - z1) - (z2 - z1) * (y3 - y1)),
     JSNum.num ((z2 - z1) * (x3 - x1) - (x2 - x1) * (z3 - z1)),
     JSNum.num ((x2 - x1) * (y3 - y1) - (y2 - y1) * (x3 - x1)),
     JSNum.num ((y2 - y1) * (z3 - z1) - (z2 - z1) * (y3 - y1)),
     JSNum.num ((z2 - z1) * (x3 - x1) - (x2 - x1) * (z3 - z1)),
     JSNum.num ((x2 - x1) * (y3 - y1) - (y2 - y1) * (x3 - x1))] := by
  norm_num [Mesh.genFace, Mesh.accumAt, Mesh.getVertex,
    arrGet_lit0, arrGet_lit1, arrGet_lit2, arrGet_lit3, arrGet_lit4,
    arrGet_lit5, arrGet_lit6, arrGet_lit7, arrGet_lit8,
    arrAddAt_lit0, arrAddAt_lit1, arrAddAt_lit2, arrAddAt_lit3, arrAddAt_lit4,
    arrAddAt_lit5, arrAddAt_lit6, arrAddAt_lit7, arrAddAt_lit8,
    List.replicate, List.set_cons_zero, List.set_cons_succ,
    List.getD_cons_zero, List.getD_cons_succ, vec3sub, vec3cross]

theorem normStep_nine_0 (sqrt : ℚ → ℚ) (e0 e1 e2 e3 e4 e5 e6 e7 e8 : JSNum) :
    Mesh.normStep sqrt [e0, e1, e2, e3, e4, e5, e6, e7, e8] 0 =
    [(vec3normalize sqrt (e0, e1, e2)).1,
     (vec3normalize sqrt (e0, e1, e2)).2.1,
     (vec3normalize sqrt (e0, e1, e2)).2.2, e3, e4, e5, e6, e7, e8] := by
  norm_num [Mesh.normStep, List.set_cons_zero, List.set_cons_succ,
    List.getD_cons_zero, List.getD_cons_succ]

theorem normStep_nine_1 (sqrt : ℚ → ℚ) (e0 e1 e2 e3 e4 e5 e6 e7 e8 : JSNum) :
    Mesh.normStep sqrt [e0, e1, e2, e3, e4, e5, e6, e7, e8] 1 =
    [e0, e1, e2,
     (vec3normalize sqrt (e3, e4, e5)).1,
     (vec3normalize sqrt (e3, e4, e5)).2.1,
     (vec3normalize sqrt (e3, e4, e5)).2.2, e6, e7, e8] := by
  norm_num [Mesh.normStep, List.set_cons_zero, List.set_cons_succ,
    List.getD_cons_zero, List.getD_cons_succ]

theorem normStep_nine_2 (sqrt : ℚ → ℚ) (e0 e1 e2 e3 e4 e5 e6 e7 e8 : JSNum) :
    Mesh.normStep sqrt [e0, e1, e2, e3, e4, e5, e6, e7, e8] 2 =
    [e0, e1, e2, e3, e4, e5,
     (vec3normalize sqrt (e6, e7, e8)).1,
     (vec3normalize sqrt (e6, e7, e8)).2.1,
     (vec3normalize sqrt (e6, e7, e8)).2.2] := by
  norm_num [Mesh.normStep, List.set_cons_zero, List.set_cons_succ,
    List.getD_cons_zero, List.getD_cons_succ]

/-- Claim C2: on a mesh holding a single triangle, `generateNormals`
accumulates the cross product of the edge vectors `v2 - v1` and `v3 - v1`
into each of the three vertices' normal slots and then normalizes, so all
three resulting vertex normals equal the `vec3.normalize`d cross product
of the two edge vectors — for arbitrary vertex coordinates and every
abstract square root interpreting `Math.sqrt`. -/
theorem generateNormals_single_triangle (sqrt : ℚ → ℚ)
    (x1 y1 z1 x2 y2 z2 x3 y3 z3 : ℚ) :
    (Mesh.generateNormals sqrt
      { vertices := [JSNum.num x1, JSNum.num y1, JSNum.num z1,
                     JSNum.num x2, JSNum.num y2, JSNum.num z2,
                     JSNum.num x3, JSNum.num y3, JSNum.num z3],
        faces := [JSNum.num 0, JSNum.num 1, JSNum.num 2], normals := [],
        numFaces := 1, numVertices := 3, numNormals := 0,
        minXYZ := (JSNum.num 0, JSNum.num 0, JSNum.num 0),
        maxXYZ := (JSNum.num 0, JSNum.num 0, JSNum.num 0) }).normals =
    (let v1 : JVec3 := (JSNum.num x1, JSNum.num y1, JSNum.num z1)
     let v2 : JVec3 := (JSNum.num x2, JSNum.num y2, JSNum.num z2)
     let v3 : JVec3 := (JSNum.num x3, JSNum.num y3, JSNum.num z3)
     let n := vec3normalize sqrt (vec3cross (vec3sub v2 v1) (vec3sub v3 v1))
     [n.1, n.2.1, n.2.2, n.1, n.2.1, n.2.2, n.1, n.2.1, n.2.2]) := by
  have hX : vec3cross
      (vec3sub (JSNum.num x2, JSNum.num y2, JSNum.num z2)
        (JSNum.num x1, JSNum.num y1, JSNum.num z1))
      (vec3sub (JSNum.num x3, JSNum.num y3, JSNum.num z3)
        (JSNum.num x1, JSNum.num y1, JSNum.num z1)) =
      ((JSNum.num ((y2 - y1) * (z3 - z1) - (z2 - z1) * (y3 - y1)),
        JSNum.num ((z2 - z1) * (x3 - x1) - (x2 - x1) * (z3 - z1)),
        JSNum.num ((x2 - x1) * (y3 - y1) - (y2 - y1) * (x3 - x1))) : JVec3) := by
    simp [vec3sub, vec3cross]
  simp only [Mesh.generateNormals, List.range_succ, List.range_zero,
    List.foldl_cons, List.foldl_nil, List.nil_append, List.append_nil]
  norm_num [genFace_single_triangle, normStep_nine_0, normStep_nine_1,
    normStep_nine_2, hX]

/-! ## Claim C4 machinery: splitting lemmas -/

theorem takeWhile_append_all {p : Char → Bool} (t rest : List Char)
    (h : ∀ c ∈ t, p c) :
    (t ++ rest).takeWhile p = t ++ rest.takeWhile p := by
  induction t with
  | nil => simp
  | cons c cs ih =>
    have hc := h c (List.mem_cons_self c cs)
    simp [List.takeWhile_cons, hc, ih (fun d hd => h d (List.mem_cons_of_mem c hd))]

theorem dropWhile_append_all {p : Char → Bool} (t rest : List Char)
    (h : ∀ c ∈ t, p c) :
    (t ++ rest).dropWhile p = rest.dropWhile p := by
  induction t with
  | nil => simp
  | cons c cs ih =>
    have hc := h c (List.mem_cons_self c cs)
    simp [List.dropWhile_cons, hc, ih (fun d hd => h d (List.mem_cons_of_mem c hd))]

theorem splitOnCharGo_no_sep (sep : Char) (cs acc : List Char) (h : sep ∉ cs) :
    splitOnCharGo sep cs acc = [acc.reverse ++ cs] := by
  induction cs generalizing acc with
  | nil => simp [splitOnCharGo]
  | cons c rest ih =>
    have hc : ¬(c = sep) := fun he => h (he ▸ List.mem_cons_self c rest)
    rw [splitOnCharGo, if_neg hc, ih _ (fun hm => h (List.mem_cons_of_mem c hm))]
    simp

theorem splitOnCharGo_break (sep : Char) (t rest acc : List Char) (h : sep ∉ t) :
    splitOnCharGo sep (t ++ sep :: rest) acc =
      (acc.reverse ++ t) :: splitOnCharGo sep rest [] := by
  induction t generalizing acc with
  | nil => simp [splitOnCharGo]
  | cons c cs ih =>
    have hc : ¬(c = sep) := fun he => h (he ▸ List.mem_cons_self c cs)
    rw [List.cons_append, splitOnCharGo, if_neg hc,
      ih _ (fun hm => h (List.mem_cons_of_mem c hm))]
    simp

theorem splitOnChar_no_sep (sep : Char) (cs : List Char) (h : sep ∉ cs) :
    splitOnChar sep cs = [cs] := by
  rw [splitOnChar, splitOnCharGo_no_sep sep cs [] h]
  rfl

theorem splitOnChar_break (sep : Char) (t rest : List Char) (h : sep ∉ t) :
    splitOnChar sep (t ++ sep :: rest) = t :: splitOnChar sep rest := by
  rw [splitOnChar, splitOnCharGo_break sep t rest [] h]
  rfl

theorem splitOnChar_intercalate (sep : Char) (xs : List (List Char))
    (hne : xs ≠ []) (hsep : ∀ x ∈ xs, sep ∉ x) :
    splitOnChar sep (List.intercalate [sep] xs) = xs := by
  induction xs with
  | nil => exact absurd rfl hne
  | cons x rest ih =>
    cases rest with
    | nil =>
      simp only [List.intercalate, List.intersperse, List.flatten]
      rw [List.append_nil]
      exact splitOnChar_no_sep sep x (hsep x (List.mem_cons_self x []))
    | cons y rest2 =>
      have hx : sep ∉ x := hsep x (List.mem_cons_self x _)
      have hstep : List.intercalate [sep] (x :: y :: rest2) =
          x ++ sep :: List.intercalate [sep] (y :: rest2) := by
        simp [List.intercalate, List.intersperse]
      rw [hstep, splitOnChar_break sep _ _ hx,
        ih (by simp) (fun z hz => hsep z (List.mem_cons_of_mem x hz))]

/-! ## Claim C4 machinery: decimal rendering and parseInt round-trip -/

/-- Decimal rendering of a natural number (the digits a `.obj` file holds
for a face index). -/
def natToChars (n : Nat) : List Char :=
  if n < 10 then [Char.ofNat (48 + n)]
  else natToChars (n / 10) ++ [Char.ofNat (48 + n % 10)]
termination_by n
decreasing_by exact Nat.div_lt_self (by omega) (by norm_num)

theorem digitChar_isDigit (d : Nat) (h : d < 10) :
    (Char.ofNat (48 + d)).isDigit = true := by
  interval_cases d <;> decide

theorem digitVal_digitChar (d : Nat) (h : d < 10) :
    digitVal (Char.ofNat (48 + d)) = d := by
  interval_cases d <;> decide

theorem natToChars_all_digits (n : Nat) : ∀ c ∈ natToChars n, c.isDigit = true := by
  induction n using Nat.strong_induction_on with
  | _ n ih =>
    intro c hc
    by_cases h : n < 10
    · rw [natToChars, if_pos h] at hc
      simp only [List.mem_singleton] at hc
      exact hc ▸ digitChar_isDigit n h
    · rw [natToChars, if_neg h] at hc
      rcases List.mem_append.mp hc with hm | hm
      · exact ih (n / 10) (Nat.div_lt_self (by omega) (by norm_num)) c hm
      · simp only [List.mem_singleton] at hm
        exact hm ▸ digitChar_isDigit (n % 10) (Nat.mod_lt n (by norm_num))

theorem natToChars_ne_nil (n : Nat) : natToChars n ≠ [] := by
  by_cases h : n < 10
  · rw [natToChars, if_pos h]; simp
  · rw [natToChars, if_neg h]; simp

theorem digitsToNat_append (xs : List Char) (c : Char) :
    digitsToNat (xs ++ [c]) = 10 * digitsToNat xs + digitVal c := by
  simp [digitsToNat, List.foldl_append]

theorem digitsToNat_natToChars (n : Nat) : digitsToNat (natToChars n) = n := by
  induction n using Nat.strong_induction_on with
  | _ n ih =>
    by_cases h : n < 10
    · rw [natToChars, if_pos h]
      simp [digitsToNat, digitVal_digitChar n h]
    · rw [natToChars, if_neg h, digitsToNat_append,
        ih (n / 10) (Nat.div_lt_self (by omega) (by norm_num)),
        digitVal_digitChar (n % 10) (Nat.mod_lt n (by norm_num))]
      omega

theorem isDigit_ne_space {c : Char} (h : c.isDigit = true) : c ≠ ' ' := by
  intro he; rw [he] at h; exact absurd h (by decide)

theorem isDigit_ne_newline {c : Char} (h : c.isDigit = true) : c ≠ '\n' := by
  intro he; rw [he] at h; exact absurd h (by decide)

theorem isDigit_ne_minus {c : Char} (h : c.isDigit = true) : c ≠ '-' := by
  intro he; rw [he] at h; exact absurd h (by decide)

theorem isDigit_ne_plus {c : Char} (h : c.isDigit = true) : c ≠ '+' := by
  intro he; rw [he] at h; exact absurd h (by decide)

theorem parseIntJS_natToChars (n : Nat) : parseIntJS (natToChars n) = JSNum.num n := by
  obtain ⟨c, cs, hcons⟩ : ∃ c cs, natToChars n = c :: cs := by
    cases hn : natToChars n with
    | nil => exact absurd hn (natToChars_ne_nil n)
    | cons c cs => exact ⟨c, cs, rfl⟩
  have hdigs := natToChars_all_digits n
  have hcdig : c.isDigit = true := hdigs c (by rw [hcons]; exact List.mem_cons_self c cs)
  have hdrop : (natToChars n).dropWhile (· = ' ') = natToChars n := by
    rw [hcons, List.dropWhile_cons, if_neg (by simp [isDigit_ne_space hcdig])]
  have hsign : parseSign (natToChars n) = (1, natToChars n) := by
    rw [hcons, parseSign, if_neg (by simp [isDigit_ne_minus hcdig]),
      if_neg (by simp [isDigit_ne_plus hcdig])]
  have htake : (natToChars n).takeWhile Char.isDigit = natToChars n := by
    have := takeWhile_append_all (p := Char.isDigit) (natToChars n) [] hdigs
    simpa using this
  rw [parseIntJS]
  simp only [hdrop, hsign, htake]
  rw [if_neg (natToChars_ne_nil n), digitsToNat_natToChars]
  simp

/-! ## Claim C4: well-formed OBJ text blocks -/

/-- One line of the restricted OBJ subset the spec describes: a vertex
line `v t1 t2 t3` (tokens kept abstract — C4 constrains only the counts),
a triangular face line `f a b c` with 1-based indices rendered in decimal,
or a comment line `# ...`. -/
inductive ObjLine where
  | vert (t1 t2 t3 : List Char)
  | face (a b c : Nat)
  | comment (s : List Char)

/-- The text of one OBJ line. -/
def renderLine : ObjLine → List Char
  | ObjLine.vert t1 t2 t3 => 'v' :: ' ' :: (t1 ++ ' ' :: (t2 ++ ' ' :: t3))
  | ObjLine.face a b c =>
    'f' :: ' ' :: (natToChars a ++ ' ' :: (natToChars b ++ ' ' :: natToChars c))
  | ObjLine.comment s => '#' :: s

/-- The OBJ text block: the lines joined by newlines. -/
def objText (ls : List ObjLine) : List Char :=
  List.intercalate ['\n'] (ls.map renderLine)

/-- A well-formed token: nonempty, no separator characters. -/
def tokOk (t : List Char) : Prop := t ≠ [] ∧ ' ' ∉ t ∧ '\n' ∉ t

instance (t : List Char) : Decidable (tokOk t) := by unfold tokOk; infer_instance

/-- A well-formed line: vertex tokens are well formed; a comment contains
no newline (face indices render to digit strings, which are always fine). -/
def lineOk : ObjLine → Prop
  | ObjLine.vert t1 t2 t3 => tokOk t1 ∧ tokOk t2 ∧ tokOk t3
  | ObjLine.face _ _ _ => True
  | ObjLine.comment s => '\n' ∉ s

instance (l : ObjLine) : Decidable (lineOk l) := by
  cases l <;> simp only [lineOk] <;> infer_instance

/-- Is this a `v` line? -/
def isVertLine : ObjLine → Bool
  | ObjLine.vert _ _ _ => true
  | _ => false

/-- Is this an `f` line? -/
def isFaceLine : ObjLine → Bool
  | ObjLine.face _ _ _ => true
  | _ => false

/-- The vertex coordinates a line contributes. -/
def vertVals : ObjLine → List JSNum
  | ObjLine.vert t1 t2 t3 => [parseFloatJS t1, parseFloatJS t2, parseFloatJS t3]
  | _ => []

/-- The 0-based face indices a line contributes: one less than the 1-based
indices written in the text. -/
def faceIdxVals : ObjLine → List JSNum
  | ObjLine.face a b c =>
    [JSNum.num ((a : ℚ) - 1), JSNum.num ((b : ℚ) - 1), JSNum.num ((c : ℚ) - 1)]
  | _ => []

theorem natToChars_no_space (n : Nat) : ' ' ∉ natToChars n := by
  intro h
  exact absurd (natToChars_all_digits n ' ' h) (by decide)

theorem natToChars_no_newline (n : Nat) : '\n' ∉ natToChars n := by
  intro h
  exact absurd (natToChars_all_digits n '\n' h) (by decide)

theorem splitSpaces_token_line (h : Char) (t1 t2 t3 : List Char)
    (hh : ¬(h = ' ')) (h1 : ' ' ∉ t1) (h2 : ' ' ∉ t2) (h3 : ' ' ∉ t3)
    (hn1 : t1 ≠ []) (hn2 : t2 ≠ []) :
    splitSpaces (h :: ' ' :: (t1 ++ ' ' :: (t2 ++ ' ' :: t3))) = [[h], t1, t2, t3] := by
  have hsc : splitOnChar ' ' (h :: ' ' :: (t1 ++ ' ' :: (t2 ++ ' ' :: t3))) =
      [h] :: t1 :: t2 :: [t3] := by
    have hb0 := splitOnChar_break ' ' [h] (t1 ++ ' ' :: (t2 ++ ' ' :: t3))
      (by
        simp only [List.mem_singleton]
        exact fun he => hh he.symm)
    simp only [List.singleton_append] at hb0
    rw [hb0, splitOnChar_break ' ' t1 _ h1, splitOnChar_break ' ' t2 _ h2,
      splitOnChar_no_sep ' ' t3 h3]
  rw [splitSpaces, hsc]
  simp [collapseMid, hn1, hn2]

theorem objLine_vert (m : Mesh) (t1 t2 t3 : List Char)
    (h1 : tokOk t1) (h2 : tokOk t2) (h3 : tokOk t3) :
    Mesh.objLine m (renderLine (ObjLine.vert t1 t2 t3)) =
      { m with vertices :=
          m.vertices ++ [parseFloatJS t1, parseFloatJS t2, parseFloatJS t3] } := by
  have hs := splitSpaces_token_line 'v' t1 t2 t3 (by decide)
    h1.2.1 h2.2.1 h3.2.1 h1.1 h2.1
  rw [renderLine, Mesh.objLine]
  rw [if_neg (by simp), hs]
  simp [List.getD]

theorem objLine_face (m : Mesh) (a b c : Nat) :
    Mesh.objLine m (renderLine (ObjLine.face a b c)) =
      { m with faces := m.faces ++
          [JSNum.num ((a : ℚ) - 1), JSNum.num ((b : ℚ) - 1), JSNum.num ((c : ℚ) - 1)] } := by
  have hs := splitSpaces_token_line 'f' (natToChars a) (natToChars b) (natToChars c)
    (by decide) (natToChars_no_space a) (natToChars_no_space b) (natToChars_no_space c)
    (natToChars_ne_nil a) (natToChars_ne_nil b)
  rw [renderLine, Mesh.objLine]
  rw [if_neg (by simp), hs]
  simp [List.getD, parseIntJS_natToChars]

theorem objLine_comment (m : Mesh) (s : List Char) :
    Mesh.objLine m (renderLine (ObjLine.comment s)) = m := by
  rw [renderLine, Mesh.objLine, if_pos (by simp)]

theorem renderLine_no_newline (l : ObjLine) (h : lineOk l) : '\n' ∉ renderLine l := by
  cases l with
  | vert t1 t2 t3 =>
    obtain ⟨h1, h2, h3⟩ := h
    intro hm
    simp only [renderLine, List.mem_cons, List.mem_append] at hm
    rcases hm with hc | hc | hc
    · exact absurd hc (by decide)
    · exact absurd hc (by decide)
    · rcases hc with hc | hc | hc | hc | hc
      · exact h1.2.2 hc
      · exact absurd hc (by decide)
      · exact h2.2.2 hc
      · exact absurd hc (by decide)
      · exact h3.2.2 hc
  | face a b c =>
    intro hm
    simp only [renderLine, List.mem_cons, List.mem_append] at hm
    rcases hm with hc | hc | hc
    · exact absurd hc (by decide)
    · exact absurd hc (by decide)
    · rcases hc with hc | hc | hc | hc | hc
      · exact natToChars_no_newline a hc
      · exact absurd hc (by decide)
      · exact natToChars_no_newline b hc
      · exact absurd hc (by decide)
      · exact natToChars_no_newline c hc
  | comment s =>
    intro hm
    simp only [renderLine, List.mem_cons] at hm
    rcases hm with hc | hc
    · exact absurd hc (by decide)
    · exact h hc

theorem foldl_objLine_render (ls : List ObjLine) (h : ∀ l ∈ ls, lineOk l) (m : Mesh) :
    (ls.map renderLine).foldl Mesh.objLine m =
      { m with vertices := m.vertices ++ (ls.map vertVals).flatten,
               faces := m.faces ++ (ls.map faceIdxVals).flatten } := by
  induction ls generalizing m with
  | nil => simp
  | cons l rest ih =>
    have hl := h l (List.mem_cons_self l rest)
    have hrest : ∀ x ∈ rest, lineOk x := fun x hx => h x (List.mem_cons_of_mem l hx)
    rw [List.map_cons, List.foldl_cons]
    cases l with
    | vert t1 t2 t3 =>
      rw [objLine_vert m t1 t2 t3 hl.1 hl.2.1 hl.2.2, ih hrest]
      simp [vertVals, faceIdxVals]
    | face a b c =>
      rw [objLine_face m a b c, ih hrest]
      simp [vertVals, faceIdxVals]
    | comment s =>
      rw [objLine_comment m s, ih hrest]
      simp [vertVals, faceIdxVals]

theorem vertVals_flatten_length (ls : List ObjLine) :
    ((ls.map vertVals).flatten).length = 3 * (ls.filter isVertLine).length := by
  induction ls with
  | nil => simp
  | cons l rest ih =>
    cases l <;> simp [vertVals, isVertLine, List.filter_cons, ih] <;> omega

theorem faceIdxVals_flatten_length (ls : List ObjLine) :
    ((ls.map faceIdxVals).flatten).length = 3 * (ls.filter isFaceLine).length := by
  induction ls with
  | nil => simp
  | cons l rest ih =>
    cases l <;> simp [faceIdxVals, isFaceLine, List.filter_cons, ih] <;> omega

/-- Claim C4: for every well-formed OBJ text block of vertex lines, face
lines with decimal 1-based indices, and comment lines, `fromObj` produces
a mesh whose `numVertices` is the number of `v` lines, whose `numFaces` is
the number of `f` lines, and whose stored face indices are exactly one
less than the indices written in the text. -/
theorem fromObj_counts_and_indices (sqrt : ℚ → ℚ) (ls : List ObjLine)
    (h : ∀ l ∈ ls, lineOk l) :
    (Mesh.fromObj sqrt (objText ls)).numVertices = (ls.filter isVertLine).length ∧
    (Mesh.fromObj sqrt (objText ls)).numFaces = (ls.filter isFaceLine).length ∧
    (Mesh.fromObj sqrt (objText ls)).faces = (ls.map faceIdxVals).flatten := by
  cases ls with
  | nil =>
    refine ⟨?_, ?_, ?_⟩ <;>
      simp [Mesh.fromObj, objText, List.intercalate, splitOnChar, splitOnCharGo,
        Mesh.objLine, splitSpaces, collapseMid, Mesh.new]
  | cons l0 rest =>
    have hsplit : splitOnChar '\n' (objText (l0 :: rest)) =
        (l0 :: rest).map renderLine :=
      splitOnChar_intercalate '\n' _ (by simp)
        (by
          intro x hx
          simp only [List.mem_map] at hx
          obtain ⟨l, hl, rfl⟩ := hx
          exact renderLine_no_newline l (h l hl))
    have hfold := foldl_objLine_render (l0 :: rest) h Mesh.new
    have hv := vertVals_flatten_length (l0 :: rest)
    have hf := faceIdxVals_flatten_length (l0 :: rest)
    refine ⟨?_, ?_, ?_⟩
    · simp only [Mesh.fromObj, generateNormals_numVertices, computeAABB_numVertices]
      rw [hsplit, hfold]
      simp only [Mesh.new, List.nil_append]
      rw [hv]
      exact Nat.mul_div_cancel_left _ (by norm_num)
    · simp only [Mesh.fromObj, generateNormals_numFaces, computeAABB_numFaces]
      rw [hsplit, hfold]
      simp only [Mesh.new, List.nil_append]
      rw [hf]
      exact Nat.mul_div_cancel_left _ (by norm_num)
    · simp only [Mesh.fromObj, generateNormals_faces, computeAABB_faces]
      rw [hsplit, hfold]
      simp [Mesh.new]

/-- Witness for C4 at a concrete three-line OBJ block: one vertex line,
one face line with 1-based indices `1 2 3`, one comment line. -/
theorem fromObj_counts_and_indices_witness :
    (Mesh.fromObj (fun q => q)
        (objText [ObjLine.vert ['1'] ['2'] ['3'], ObjLine.face 1 2 3,
                  ObjLine.comment [' ', 'h', 'i']])).numVertices =
      (([ObjLine.vert ['1'] ['2'] ['3'], ObjLine.face 1 2 3,
         ObjLine.comment [' ', 'h', 'i']]).filter isVertLine).length ∧
    (Mesh.fromObj (fun q => q)
        (objText [ObjLine.vert ['1'] ['2'] ['3'], ObjLine.face 1 2 3,
                  ObjLine.comment [' ', 'h', 'i']])).numFaces =
      (([ObjLine.vert ['1'] ['2'] ['3'], ObjLine.face 1 2 3,
         ObjLine.comment [' ', 'h', 'i']]).filter isFaceLine).length ∧
    (Mesh.fromObj (fun q => q)
        (objText [ObjLine.vert ['1'] ['2'] ['3'], ObjLine.face 1 2 3,
                  ObjLine.comment [' ', 'h', 'i']])).faces =
      (([ObjLine.vert ['1'] ['2'] ['3'], ObjLine.face 1 2 3,
         ObjLine.comment [' ', 'h', 'i']]).map faceIdxVals).flatten :=
  fromObj_counts_and_indices (fun q => q)
    [ObjLine.vert ['1'] ['2'] ['3'], ObjLine.face 1 2 3,
     ObjLine.comment [' ', 'h', 'i']] (by decide)

/-! ## Claim C7 (fromObj's silent error handling) -/

/-- Claim C7: `fromObj` (a total function in this embedding — the code
throws no exception and reports no error) silently skips every line whose
first character is `#` and every line whose first space-separated token is
neither `v` nor `f`, leaving vertices and faces untouched; and a malformed
numeric token on a `v` line parses to `NaN`, which is stored in the mesh
uncaught, as in the concrete text `v foo 2 3`. -/
theorem fromObj_silent_error_handling (m : Mesh) (line : List Char)
    (sqrt : ℚ → ℚ)
    (hcomment : line.head? = some '#') :
    Mesh.objLine m line = m ∧
    (∀ m2 : Mesh, ∀ line2 : List Char, line2.head? ≠ some '#' →
      (splitSpaces line2).headD [] ≠ ['v'] → (splitSpaces line2).headD [] ≠ ['f'] →
      Mesh.objLine m2 line2 = m2) ∧
    (Mesh.fromObj sqrt ['v', ' ', 'f', 'o', 'o', ' ', '2', ' ', '3']).vertices =
      [JSNum.nan, JSNum.num 2, JSNum.num 3] := by
  refine ⟨?_, ?_, ?_⟩
  · rw [Mesh.objLine, if_pos hcomment]
  · intro m2 line2 hs1 hs2 hs3
    rw [Mesh.objLine, if_neg hs1]
    simp only []
    rw [if_neg hs2, if_neg hs3]
  · simp [Mesh.fromObj, Mesh.objLine, splitSpaces, splitOnChar, splitOnCharGo,
      collapseMid, parseFloatJS, parseSign, digitsToNat, digitVal, Mesh.new,
      List.getD]

/-- Witness for C7: the comment line `# x` at a fresh mesh, the general
skip property, and the concrete `NaN` propagation instance. -/
theorem fromObj_silent_error_handling_witness :
    Mesh.objLine Mesh.new ['#', 'x'] = Mesh.new ∧
    (∀ m2 : Mesh, ∀ line2 : List Char, line2.head? ≠ some '#' →
      (splitSpaces line2).headD [] ≠ ['v'] → (splitSpaces line2).headD [] ≠ ['f'] →
      Mesh.objLine m2 line2 = m2) ∧
    (Mesh.fromObj (fun q => q) ['v', ' ', 'f', 'o', 'o', ' ', '2', ' ', '3']).vertices =
      [JSNum.nan, JSNum.num 2, JSNum.num 3] :=
  fromObj_silent_error_handling Mesh.new ['#', 'x'] (fun q => q) rfl
